import Mathlib

/-!
llvm-fibonacci: the IR that `create_fib_func` builds, and the glue in `main`.

`src/fibonacci.c` is a sequence of calls into the LLVM C API.  The program is
embedded by explicit state passing: every API function the program calls is a
Lean function of the same name over a `World` that holds

* the IR objects the library owns (functions, basic blocks, instructions),
* the object code emitted to memory buffers and the code loaded into the JIT
  session, and
* the chronological record (`trace`) of every call the program made.

The library itself is not part of the repository.  Its calls are modelled after
their documented behaviour: constructors allocate a fresh object, the builder
appends instructions at its position, a call whose result `main` tests fails or
succeeds as an `Outcomes` value says, and code the JIT loaded behaves as the IR
it was compiled from.  The library's option parser can end the process inside
`LLVMParseCommandLineOptions`: `main` is the program in the runs in which that
call returns, `program` is the program with both possibilities.  The IR is given its meaning by a small interpreter
(`exec`) for the instructions that occur (`icmp`, `sub`, `add`, `call`, `br`,
`ret`) on fixed-width integers, represented as natural numbers below
`2 ^ bits`; `LLVMSetTailCall` only marks a call and does not change its value.
-/

namespace Fibonacci

/-! ## IR data model -/

/-- Integer comparison predicates of `llvm-c/Core.h`. -/
inductive LLVMIntPredicate
  | LLVMIntEQ | LLVMIntNE
  | LLVMIntUGT | LLVMIntUGE | LLVMIntULT | LLVMIntULE
  | LLVMIntSGT | LLVMIntSGE | LLVMIntSLT | LLVMIntSLE
  deriving DecidableEq, Repr

/-- Types are uniqued inside a context, so a type reference is the type itself.
Only integer types and functions over integer types occur. -/
inductive LLVMTypeRef
  | int (bits : Nat)
  | function (retBits : Nat) (paramBits : List Nat) (isVarArg : Bool)
  deriving DecidableEq, Repr

/-- Width of an integer type (`0` for a function type). -/
def LLVMTypeRef.bits : LLVMTypeRef → Nat
  | .int b => b
  | .function _ _ _ => 0

/-- A value reference: a constant, a formal parameter of a function, the result
of an instruction, or a function.  Objects are named by the number the library
gave them when it allocated them. -/
inductive LLVMValueRef
  | constInt (bits : Nat) (n : Nat)
  | param (fn : Nat) (idx : Nat)
  | inst (id : Nat)
  | func (fn : Nat)
  deriving DecidableEq, Repr

/-- The instructions the program builds. -/
inductive Opcode
  | icmp (op : LLVMIntPredicate) (lhs rhs : LLVMValueRef)
  | sub (lhs rhs : LLVMValueRef)
  | add (lhs rhs : LLVMValueRef)
  | call (ty : LLVMTypeRef) (fn : LLVMValueRef) (args : List LLVMValueRef) (isTail : Bool)
  | condBr (cond : LLVMValueRef) (thenBB elseBB : Nat)
  | ret (v : LLVMValueRef)
  deriving DecidableEq, Repr

structure Instruction where
  id : Nat
  name : String
  op : Opcode
  deriving DecidableEq, Repr

structure BasicBlock where
  id : Nat
  name : String
  insts : List Instruction
  deriving DecidableEq, Repr

structure Function where
  id : Nat
  parent : Nat
  name : String
  type : LLVMTypeRef
  paramNames : List String
  blocks : List BasicBlock
  deriving DecidableEq, Repr

/-! ## The record of calls -/

/-- Every function of the LLVM C API (and of the C library) that
`src/fibonacci.c` calls. -/
inductive Api
  | LLVMGetErrorMessage | LLVMDisposeErrorMessage
  | LLVMInt32TypeInContext | LLVMFunctionType | LLVMAddFunction
  | LLVMAppendBasicBlockInContext | LLVMConstInt | LLVMGetParam | LLVMSetValueName
  | LLVMCreateBuilderInContext | LLVMPositionBuilderAtEnd
  | LLVMBuildICmp | LLVMBuildCondBr | LLVMBuildRet | LLVMBuildSub | LLVMBuildCall2
  | LLVMSetTailCall | LLVMBuildAdd | LLVMDisposeBuilder
  | LLVMParseCommandLineOptions | LLVMInitializeNativeTarget
  | LLVMInitializeNativeAsmPrinter | LLVMContextCreate
  | LLVMModuleCreateWithNameInContext | LLVMPrintModuleToFile
  | LLVMOrcCreateLLJIT | LLVMOrcLLJITGetTripleString | LLVMGetTargetFromTriple
  | LLVMDisposeModule | LLVMContextDispose | LLVMCreateTargetMachine
  | LLVMTargetMachineEmitToFile | LLVMDisposeTargetMachine
  | LLVMTargetMachineEmitToMemoryBuffer | LLVMOrcLLJITGetMainJITDylib
  | LLVMOrcLLJITAddObjectFile | LLVMOrcLLJITLookup | LLVMOrcDisposeLLJIT
  | LLVMShutdown
  deriving DecidableEq, Repr

/-- An actual argument of a recorded call. -/
inductive Arg
  | obj (h : Nat)
  | type (t : LLVMTypeRef)
  | types (ts : List LLVMTypeRef)
  | value (v : LLVMValueRef)
  | values (vs : List LLVMValueRef)
  | str (s : String)
  | strs (ss : List String)
  | int (i : Int)
  | const (name : String)
  | pred (p : LLVMIntPredicate)
  | null
  | out (var : String)
  deriving DecidableEq, Repr

inductive Stream
  | stdout | stderr
  deriving DecidableEq, Repr

/-- One observable step of the program: a call into the library together with
whether it reported failure, a call through the function pointer obtained from
the JIT (with the session that owns the code), or a formatted write to a
standard stream. -/
inductive Event
  | lib (fn : Api) (args : List Arg) (failed : Bool)
  | native (session : Nat) (addr : Nat) (args : List Int)
  | print (s : Stream) (fmt : String) (args : List Arg)
  deriving DecidableEq, Repr

/-- The state threaded through the program. -/
structure World where
  fresh : Nat
  trace : List Event
  funcs : List Function
  builders : List (Nat × Nat)
  buffers : List (Nat × List Function)
  loaded : List (Nat × Function)
  deriving Repr

def World.empty : World :=
  { fresh := 0, trace := [], funcs := [], builders := [], buffers := [], loaded := [] }

def World.log (w : World) (fn : Api) (args : List Arg) (failed : Bool) : World :=
  { w with trace := w.trace ++ [Event.lib fn args failed] }

def World.emit (w : World) (e : Event) : World :=
  { w with trace := w.trace ++ [e] }

def World.alloc (w : World) : Nat × World :=
  (w.fresh, { w with fresh := w.fresh + 1 })

def World.updFunc (w : World) (fid : Nat) (g : Function → Function) : World :=
  { w with funcs := w.funcs.map fun f => if f.id = fid then g f else f }

/-- Map over every instruction of every function. -/
def World.updInst (w : World) (g : Instruction → Instruction) : World :=
  { w with funcs := w.funcs.map fun f =>
      { f with blocks := f.blocks.map fun b => { b with insts := b.insts.map g } } }

/-- Append a new instruction at the end of the block the builder is positioned
at; the instruction's result is the returned value. -/
def World.insert (w : World) (B : Nat) (name : String) (op : Opcode) :
    LLVMValueRef × World :=
  let (id, w) := w.alloc
  match w.builders.lookup B with
  | none => (.inst id, w)
  | some bb =>
    (.inst id,
      { w with funcs := w.funcs.map fun f =>
          { f with blocks := f.blocks.map fun b =>
              if b.id = bb then { b with insts := b.insts ++ [Instruction.mk id name op] } else b } })

/-! ## The LLVM C API calls made by `create_fib_func` -/

def LLVMInt32TypeInContext (w : World) (C : Nat) : LLVMTypeRef × World :=
  (.int 32, w.log .LLVMInt32TypeInContext [.obj C] false)

def LLVMFunctionType (w : World) (ReturnType : LLVMTypeRef) (ParamTypes : List LLVMTypeRef)
    (ParamCount : Nat) (IsVarArg : Bool) : LLVMTypeRef × World :=
  (.function ReturnType.bits ((ParamTypes.take ParamCount).map LLVMTypeRef.bits) IsVarArg,
    w.log .LLVMFunctionType
      [.type ReturnType, .types ParamTypes, .int ParamCount, .int (if IsVarArg then 1 else 0)]
      false)

def LLVMAddFunction (w : World) (M : Nat) (Name : String) (FunctionTy : LLVMTypeRef) :
    LLVMValueRef × World :=
  let (h, w) := w.alloc
  let nparams := match FunctionTy with
    | .function _ ps _ => ps.length
    | .int _ => 0
  let f : Function :=
    { id := h, parent := M, name := Name, type := FunctionTy,
      paramNames := List.replicate nparams "", blocks := [] }
  (.func h,
    { w with funcs := w.funcs ++ [f] }.log .LLVMAddFunction
      [.obj M, .str Name, .type FunctionTy] false)

def LLVMAppendBasicBlockInContext (w : World) (C : Nat) (Fn : LLVMValueRef) (Name : String) :
    Nat × World :=
  let (h, w) := w.alloc
  let w := match Fn with
    | .func fid => w.updFunc fid fun f => { f with blocks := f.blocks ++ [BasicBlock.mk h Name []] }
    | _ => w
  (h, w.log .LLVMAppendBasicBlockInContext [.obj C, .value Fn, .str Name] false)

def LLVMConstInt (w : World) (IntTy : LLVMTypeRef) (N : Nat) (SignExtend : Bool) :
    LLVMValueRef × World :=
  (.constInt IntTy.bits (N % 2 ^ IntTy.bits),
    w.log .LLVMConstInt [.type IntTy, .int N, .int (if SignExtend then 1 else 0)] false)

def LLVMGetParam (w : World) (Fn : LLVMValueRef) (Index : Nat) : LLVMValueRef × World :=
  let v := match Fn with
    | .func fid => LLVMValueRef.param fid Index
    | other => other
  (v, w.log .LLVMGetParam [.value Fn, .int Index] false)

def LLVMSetValueName (w : World) (Val : LLVMValueRef) (Name : String) : World :=
  let w := match Val with
    | .param fid i => w.updFunc fid fun f => { f with paramNames := f.paramNames.set i Name }
    | .inst id => w.updInst fun x => if x.id = id then { x with name := Name } else x
    | _ => w
  w.log .LLVMSetValueName [.value Val, .str Name] false

def LLVMCreateBuilderInContext (w : World) (C : Nat) : Nat × World :=
  let (h, w) := w.alloc
  (h, w.log .LLVMCreateBuilderInContext [.obj C] false)

def LLVMPositionBuilderAtEnd (w : World) (Builder : Nat) (Block : Nat) : World :=
  { w with builders := (Builder, Block) :: w.builders.filter fun p => p.1 ≠ Builder }.log
    .LLVMPositionBuilderAtEnd [.obj Builder, .obj Block] false

def LLVMBuildICmp (w : World) (B : Nat) (Op : LLVMIntPredicate) (LHS RHS : LLVMValueRef)
    (Name : String) : LLVMValueRef × World :=
  let (v, w) := w.insert B Name (.icmp Op LHS RHS)
  (v, w.log .LLVMBuildICmp
    [.obj B, .pred Op, .value LHS, .value RHS, .str Name] false)

def LLVMBuildCondBr (w : World) (B : Nat) (If : LLVMValueRef) (Then Else : Nat) :
    LLVMValueRef × World :=
  let (v, w) := w.insert B "" (.condBr If Then Else)
  (v, w.log .LLVMBuildCondBr [.obj B, .value If, .obj Then, .obj Else] false)

def LLVMBuildRet (w : World) (B : Nat) (V : LLVMValueRef) : LLVMValueRef × World :=
  let (v, w) := w.insert B "" (.ret V)
  (v, w.log .LLVMBuildRet [.obj B, .value V] false)

def LLVMBuildSub (w : World) (B : Nat) (LHS RHS : LLVMValueRef) (Name : String) :
    LLVMValueRef × World :=
  let (v, w) := w.insert B Name (.sub LHS RHS)
  (v, w.log .LLVMBuildSub [.obj B, .value LHS, .value RHS, .str Name] false)

def LLVMBuildAdd (w : World) (B : Nat) (LHS RHS : LLVMValueRef) (Name : String) :
    LLVMValueRef × World :=
  let (v, w) := w.insert B Name (.add LHS RHS)
  (v, w.log .LLVMBuildAdd [.obj B, .value LHS, .value RHS, .str Name] false)

def LLVMBuildCall2 (w : World) (B : Nat) (Ty : LLVMTypeRef) (Fn : LLVMValueRef)
    (Args : List LLVMValueRef) (NumArgs : Nat) (Name : String) : LLVMValueRef × World :=
  let (v, w) := w.insert B Name (.call Ty Fn (Args.take NumArgs) false)
  (v, w.log .LLVMBuildCall2
    [.obj B, .type Ty, .value Fn, .values Args, .int NumArgs, .str Name] false)

def LLVMSetTailCall (w : World) (CallInst : LLVMValueRef) (IsTailCall : Bool) : World :=
  let w := match CallInst with
    | .inst id => w.updInst fun x =>
        if x.id = id then
          match x.op with
          | .call ty fn args _ => { x with op := .call ty fn args IsTailCall }
          | _ => x
        else x
    | _ => w
  w.log .LLVMSetTailCall [.value CallInst, .int (if IsTailCall then 1 else 0)] false

def LLVMDisposeBuilder (w : World) (Builder : Nat) : World :=
  { w with builders := w.builders.filter fun p => p.1 ≠ Builder }.log
    .LLVMDisposeBuilder [.obj Builder] false

/-! ## `create_fib_func` (src/fibonacci.c, lines 31-72) -/

def create_fib_func (w : World) (mod ctx : Nat) : LLVMValueRef × World :=
  let (i32, w) := LLVMInt32TypeInContext w ctx
  let fib_arg_ty := [i32]
  let (ret_ty, w) := LLVMInt32TypeInContext w ctx
  let (fib_fn_ty, w) := LLVMFunctionType w ret_ty fib_arg_ty 1 false
  let (fib_fn, w) := LLVMAddFunction w mod "fib" fib_fn_ty
  let (entry_BB, w) := LLVMAppendBasicBlockInContext w ctx fib_fn "entry"
  let (return_BB, w) := LLVMAppendBasicBlockInContext w ctx fib_fn "return"
  let (recurse_BB, w) := LLVMAppendBasicBlockInContext w ctx fib_fn "recurse"
  -- Number constants
  let (one_ty, w) := LLVMInt32TypeInContext w ctx
  let (one, w) := LLVMConstInt w one_ty 1 false
  let (two_ty, w) := LLVMInt32TypeInContext w ctx
  let (two, w) := LLVMConstInt w two_ty 2 false
  let (fib_arg, w) := LLVMGetParam w fib_fn 0
  let w := LLVMSetValueName w fib_arg "n"
  -- Instruction builder
  let (builder, w) := LLVMCreateBuilderInContext w ctx
  let w := LLVMPositionBuilderAtEnd w builder entry_BB
  let (condinst, w) := LLVMBuildICmp w builder .LLVMIntSLE fib_arg two "cond"
  let (_, w) := LLVMBuildCondBr w builder condinst return_BB recurse_BB
  let w := LLVMPositionBuilderAtEnd w builder return_BB
  let (_, w) := LLVMBuildRet w builder one
  let w := LLVMPositionBuilderAtEnd w builder recurse_BB
  let (sub, w) := LLVMBuildSub w builder fib_arg one "arg"
  let fibx1_args := [sub]
  let (call_fibx1, w) := LLVMBuildCall2 w builder fib_fn_ty fib_fn fibx1_args 1 "fibx1"
  let w := LLVMSetTailCall w call_fibx1 true
  let (sub, w) := LLVMBuildSub w builder fib_arg two "arg"
  let fibx2_args := [sub]
  let (call_fibx2, w) := LLVMBuildCall2 w builder fib_fn_ty fib_fn fibx2_args 1 "fibx2"
  let w := LLVMSetTailCall w call_fibx2 true
  let (sum, w) := LLVMBuildAdd w builder call_fibx1 call_fibx2 "addresult"
  let (_, w) := LLVMBuildRet w builder sum
  let w := LLVMDisposeBuilder w builder
  (fib_fn, w)

/-! ## Meaning of the IR -/

/-- A run-time integer: its width and its value as an unsigned number. -/
structure IntVal where
  bits : Nat
  val : Nat
  deriving DecidableEq, Repr

/-- Two's-complement reading of a `bits`-wide word. -/
def toSigned (bits v : Nat) : Int :=
  if v < 2 ^ (bits - 1) then (v : Int) else (v : Int) - 2 ^ bits

/-- The `bits`-wide word that represents an integer. -/
def ofSigned (bits : Nat) (i : Int) : Nat :=
  (i % 2 ^ bits).toNat

/-- Outcome of `icmp op` on two words of the same width. -/
def icmpHolds (op : LLVMIntPredicate) (bits a b : Nat) : Bool :=
  match op with
  | .LLVMIntEQ => decide (a = b)
  | .LLVMIntNE => decide (a ≠ b)
  | .LLVMIntUGT => decide (a > b)
  | .LLVMIntUGE => decide (a ≥ b)
  | .LLVMIntULT => decide (a < b)
  | .LLVMIntULE => decide (a ≤ b)
  | .LLVMIntSGT => decide (toSigned bits a > toSigned bits b)
  | .LLVMIntSGE => decide (toSigned bits a ≥ toSigned bits b)
  | .LLVMIntSLT => decide (toSigned bits a < toSigned bits b)
  | .LLVMIntSLE => decide (toSigned bits a ≤ toSigned bits b)

/-- What a run of the IR does besides computing a value: the blocks it enters
and the calls it makes (`site` is the name of the call instruction), each with
the arguments of the activation it belongs to. -/
inductive IREvent
  | block (fn : String) (bb : String) (args : List IntVal)
  | call (caller : String) (callerArgs : List IntVal) (site : String) (callee : String)
      (calleeArgs : List IntVal)
  deriving DecidableEq, Repr

def evalValue (env : List (Nat × IntVal)) (args : List IntVal) : LLVMValueRef → Option IntVal
  | .constInt bits n => some ⟨bits, n % 2 ^ bits⟩
  | .param _ i => args.get? i
  | .inst id => env.lookup id
  | .func _ => none

def evalValues (env : List (Nat × IntVal)) (args : List IntVal) :
    List LLVMValueRef → Option (List IntVal)
  | [] => some []
  | v :: vs =>
    match evalValue env args v, evalValues env args vs with
    | some x, some xs => some (x :: xs)
    | _, _ => none

/-- What remains to be run: a call of a function, a block of an activation, or
the rest of a block. -/
inductive Task
  | call (f : Function) (args : List IntVal)
  | block (f : Function) (args : List IntVal) (env : List (Nat × IntVal)) (bb : Nat)
  | insts (f : Function) (args : List IntVal) (env : List (Nat × IntVal))
      (rest : List Instruction)

/-- The interpreter.  `fuel` bounds the nesting depth of the run (each step hands
one unit less to what it starts), so a run that needs more than `fuel` yields
`none`; arithmetic wraps at the operand width. -/
def exec (prog : List Function) : Nat → Task → Option (IntVal × List IREvent)
  | 0, _ => none
  | fuel + 1, .call f args =>
    match f.blocks with
    | [] => none
    | bb :: _ => exec prog fuel (.block f args [] bb.id)
  | fuel + 1, .block f args env bb =>
    match f.blocks.find? fun b => b.id = bb with
    | none => none
    | some b =>
      match exec prog fuel (.insts f args env b.insts) with
      | none => none
      | some (v, t) => some (v, IREvent.block f.name b.name args :: t)
  | _ + 1, .insts _ _ _ [] => none
  | fuel + 1, .insts f args env (i :: rest) =>
    match i.op with
    | .icmp op l r =>
      match evalValue env args l, evalValue env args r with
      | some a, some b =>
        if a.bits = b.bits then
          exec prog fuel (.insts f args
            ((i.id, ⟨1, if icmpHolds op a.bits a.val b.val then 1 else 0⟩) :: env) rest)
        else none
      | _, _ => none
    | .sub l r =>
      match evalValue env args l, evalValue env args r with
      | some a, some b =>
        if a.bits = b.bits then
          exec prog fuel (.insts f args
            ((i.id, ⟨a.bits, (a.val + (2 ^ a.bits - b.val % 2 ^ a.bits)) % 2 ^ a.bits⟩) :: env)
            rest)
        else none
      | _, _ => none
    | .add l r =>
      match evalValue env args l, evalValue env args r with
      | some a, some b =>
        if a.bits = b.bits then
          exec prog fuel (.insts f args
            ((i.id, ⟨a.bits, (a.val + b.val) % 2 ^ a.bits⟩) :: env) rest)
        else none
      | _, _ => none
    | .call _ fn cargs _ =>
      match fn with
      | .func g =>
        match prog.find? (fun x => x.id = g), evalValues env args cargs with
        | some gf, some vs =>
          match exec prog fuel (.call gf vs) with
          | none => none
          | some (r, t1) =>
            match exec prog fuel (.insts f args ((i.id, r) :: env) rest) with
            | none => none
            | some (v, t2) => some (v, IREvent.call f.name args i.name gf.name vs :: (t1 ++ t2))
        | _, _ => none
      | _ => none
    | .condBr c t e =>
      match evalValue env args c with
      | some cv => exec prog fuel (.block f args env (if cv.val = 1 then t else e))
      | none => none
    | .ret v =>
      match evalValue env args v with
      | some x => some (x, [])
      | none => none

/-- The world in which `main` calls `create_fib_func`: a context (object 0) and
the module "test" (object 1) exist. -/
def fibProgram : List Function :=
  (create_fib_func { World.empty with fresh := 2 } 1 0).2.funcs

/-- Run the function called `name` of `prog` on `args`. -/
def callNamed (prog : List Function) (fuel : Nat) (name : String) (args : List IntVal) :
    Option (IntVal × List IREvent) :=
  match prog.find? fun f => f.name = name with
  | none => none
  | some f => exec prog fuel (.call f args)

/-! ## The calls made by `handle_error` and `main` -/

/-- Which of the calls whose result `main` tests report failure (`true`) in a
run.  The results `main` discards (`LLVMInitializeNativeTarget`,
`LLVMInitializeNativeAsmPrinter`, `LLVMPrintModuleToFile`) have no entry. -/
structure Outcomes where
  createLLJIT : Bool
  getTargetFromTriple : Bool
  emitToFile : Bool
  emitToMemoryBuffer : Bool
  addObjectFile : Bool
  lookup : Bool
  disposeLLJIT : Bool
  deriving DecidableEq, Repr

/-- The run in which every call succeeds. -/
def Outcomes.allSucceed : Outcomes :=
  { createLLJIT := false, getTargetFromTriple := false, emitToFile := false,
    emitToMemoryBuffer := false, addObjectFile := false, lookup := false,
    disposeLLJIT := false }

/-- A possibly null pointer as a recorded argument. -/
def Arg.ptr : Option Nat → Arg
  | some h => .obj h
  | none => .null

def LLVMGetErrorMessage (w : World) (Err : Nat) : Nat × World :=
  let (msg, w) := w.alloc
  (msg, w.log .LLVMGetErrorMessage [.obj Err] false)

def LLVMDisposeErrorMessage (w : World) (ErrMsg : Nat) : World :=
  w.log .LLVMDisposeErrorMessage [.obj ErrMsg] false

def fprintf (w : World) (s : Stream) (fmt : String) (args : List Arg) : World :=
  w.emit (.print s fmt args)

def printf (w : World) (fmt : String) (args : List Arg) : World :=
  w.emit (.print .stdout fmt args)

/-- The call when it returns to `main`: it is recorded with the command line it
was given.  The library's option parser can instead end the process inside this
call (see `ParseOutcome`); that possibility is part of `program`. -/
def LLVMParseCommandLineOptions (w : World) (argc : Int) (argv : List String)
    (Overview : String) : World :=
  w.log .LLVMParseCommandLineOptions [.int argc, .strs argv, .str Overview] false

def LLVMInitializeNativeTarget (w : World) : World :=
  w.log .LLVMInitializeNativeTarget [] false

def LLVMInitializeNativeAsmPrinter (w : World) : World :=
  w.log .LLVMInitializeNativeAsmPrinter [] false

def LLVMContextCreate (w : World) : Nat × World :=
  let (h, w) := w.alloc
  (h, w.log .LLVMContextCreate [] false)

def LLVMModuleCreateWithNameInContext (w : World) (ModuleID : String) (C : Nat) :
    Nat × World :=
  let (h, w) := w.alloc
  (h, w.log .LLVMModuleCreateWithNameInContext [.str ModuleID, .obj C] false)

def LLVMPrintModuleToFile (w : World) (M : Nat) (Filename : String)
    (ErrorMessage : Option String) : World :=
  w.log .LLVMPrintModuleToFile
    [.obj M, .str Filename, match ErrorMessage with | some v => .out v | none => .null] false

/-- On success the new JIT session, on failure the error object. -/
def LLVMOrcCreateLLJIT (o : Outcomes) (w : World) (Result : String) (Builder : Option Nat) :
    Except Nat Nat × World :=
  let (h, w) := w.alloc
  let w := w.log .LLVMOrcCreateLLJIT [.out Result, Arg.ptr Builder] o.createLLJIT
  (if o.createLLJIT then .error h else .ok h, w)

def LLVMOrcLLJITGetTripleString (w : World) (J : Nat) : Nat × World :=
  let (h, w) := w.alloc
  (h, w.log .LLVMOrcLLJITGetTripleString [.obj J] false)

/-- Returns the failure flag, the target (set on success) and the error message
(set on failure). -/
def LLVMGetTargetFromTriple (o : Outcomes) (w : World) (Triple : Nat) (T ErrorMessage : String) :
    Bool × Option Nat × Option Nat × World :=
  let (h, w) := w.alloc
  let w := w.log .LLVMGetTargetFromTriple [.obj Triple, .out T, .out ErrorMessage]
    o.getTargetFromTriple
  if o.getTargetFromTriple then (true, none, some h, w) else (false, some h, none, w)

def LLVMDisposeModule (w : World) (M : Nat) : World :=
  { w with funcs := w.funcs.filter fun f => f.parent ≠ M }.log .LLVMDisposeModule [.obj M] false

def LLVMContextDispose (w : World) (C : Nat) : World :=
  w.log .LLVMContextDispose [.obj C] false

def LLVMCreateTargetMachine (w : World) (T : Option Nat) (Triple : Nat) (CPU Features : String)
    (Level Reloc CodeModel : String) : Nat × World :=
  let (h, w) := w.alloc
  (h, w.log .LLVMCreateTargetMachine
    [Arg.ptr T, .obj Triple, .str CPU, .str Features, .const Level, .const Reloc,
      .const CodeModel] false)

def LLVMDisposeTargetMachine (w : World) (T : Nat) : World :=
  w.log .LLVMDisposeTargetMachine [.obj T] false

/-- Returns the failure flag and the error message written on failure. -/
def LLVMTargetMachineEmitToFile (o : Outcomes) (w : World) (T M : Nat) (Filename : String)
    (codegen : String) (ErrorMessage : String) : Bool × Option Nat × World :=
  let (h, w) := w.alloc
  let w := w.log .LLVMTargetMachineEmitToFile
    [.obj T, .obj M, .str Filename, .const codegen, .out ErrorMessage] o.emitToFile
  if o.emitToFile then (true, some h, w) else (false, none, w)

/-- Returns the failure flag, the error message written on failure, and on
success the memory buffer, which holds the code of the functions of module `M`. -/
def LLVMTargetMachineEmitToMemoryBuffer (o : Outcomes) (w : World) (T M : Nat)
    (codegen : String) (ErrorMessage OutMemBuf : String) :
    Bool × Option Nat × Option Nat × World :=
  let (h, w) := w.alloc
  let w := w.log .LLVMTargetMachineEmitToMemoryBuffer
    [.obj T, .obj M, .const codegen, .out ErrorMessage, .out OutMemBuf] o.emitToMemoryBuffer
  if o.emitToMemoryBuffer then (true, some h, none, w)
  else
    (false, none, some h,
      { w with buffers := (h, w.funcs.filter fun f => f.parent = M) :: w.buffers })

def LLVMOrcLLJITGetMainJITDylib (w : World) (J : Nat) : Nat × World :=
  let (h, w) := w.alloc
  (h, w.log .LLVMOrcLLJITGetMainJITDylib [.obj J] false)

/-- The session takes ownership of the buffer; on success its code is loaded.
Returns the error object on failure. -/
def LLVMOrcLLJITAddObjectFile (o : Outcomes) (w : World) (J JD : Nat) (ObjBuffer : Option Nat) :
    Option Nat × World :=
  let (h, w) := w.alloc
  let w := w.log .LLVMOrcLLJITAddObjectFile [.obj J, .obj JD, Arg.ptr ObjBuffer] o.addObjectFile
  let code := match ObjBuffer with
    | some b => (w.buffers.lookup b).getD []
    | none => []
  let w := { w with buffers := w.buffers.filter fun p => some p.1 ≠ ObjBuffer }
  if o.addObjectFile then (some h, w)
  else (none, { w with loaded := w.loaded ++ code.map fun f => (J, f) })

/-- The address of a symbol is the loaded function of that name.  The call fails
when the library says so or when the session holds no such symbol. -/
def LLVMOrcLLJITLookup (o : Outcomes) (w : World) (J : Nat) (Result : String) (Name : String) :
    Except Nat Nat × World :=
  let (h, w) := w.alloc
  match w.loaded.find? fun p => p.1 = J ∧ p.2.name = Name with
  | some p =>
    let w := w.log .LLVMOrcLLJITLookup [.obj J, .out Result, .str Name] o.lookup
    (if o.lookup then .error h else .ok p.2.id, w)
  | none =>
    (.error h, w.log .LLVMOrcLLJITLookup [.obj J, .out Result, .str Name] true)

def LLVMOrcDisposeLLJIT (o : Outcomes) (w : World) (J : Nat) : Option Nat × World :=
  let (h, w) := w.alloc
  let w := { w with loaded := w.loaded.filter fun p => p.1 ≠ J }.log
    .LLVMOrcDisposeLLJIT [.obj J] o.disposeLLJIT
  (if o.disposeLLJIT then some h else none, w)

def LLVMShutdown (w : World) : World :=
  w.log .LLVMShutdown [] false

/-- A call through `int32_t (*)(int32_t)` at a JIT address: the loaded code
behaves as the IR it was compiled from.  `none` when the run does not finish
within `fuel`. -/
def callNative (w : World) (fuel : Nat) (addr : Nat) (arg : Int) : Option (Int × World) :=
  match w.loaded.find? fun p => p.2.id = addr with
  | none => none
  | some p =>
    match exec (w.loaded.map Prod.snd) fuel (.call p.2 [⟨32, ofSigned 32 arg⟩]) with
    | none => none
    | some (r, _) => some (toSigned 32 r.val, w.emit (.native p.1 addr [arg]))

/-! ## `handle_error` and `main` (src/fibonacci.c, lines 24-29 and 74-170) -/

def handle_error (w : World) (Err : Nat) : Int × World :=
  let (ErrMsg, w) := LLVMGetErrorMessage w Err
  let w := fprintf w .stderr "Error: %s\n" [.obj ErrMsg]
  let w := LLVMDisposeErrorMessage w ErrMsg
  (1, w)

/-- Label `llvm_shutdown`. -/
def llvm_shutdown (w : World) (main_res : Int) : Int × World :=
  let w := LLVMShutdown w
  (main_res, w)

/-- Label `jit_cleanup`. -/
def jit_cleanup (o : Outcomes) (w : World) (lljit : Nat) (main_res : Int) : Int × World :=
  match LLVMOrcDisposeLLJIT o w lljit with
  | (some err, w) =>
    let (new_failure, w) := handle_error w err
    llvm_shutdown w (if main_res = 0 then new_failure else main_res)
  | (none, w) => llvm_shutdown w main_res

/-- The function `main`, in the runs in which `LLVMParseCommandLineOptions`
returns (`program` adds the runs in which the library ends the process there).
`o` fixes the outcome of the library calls, `fuel` bounds the run of the
JIT-compiled code.  The result is the exit status and the final world, whose
`trace` is everything the run did. -/
def main (o : Outcomes) (fuel : Nat) (argc : Int) (argv : List String) : Option (Int × World) :=
  let main_res : Int := 0
  let w := LLVMParseCommandLineOptions World.empty argc argv ""
  let w := LLVMInitializeNativeTarget w
  let w := LLVMInitializeNativeAsmPrinter w
  let (ctx, w) := LLVMContextCreate w
  let (test_mod, w) := LLVMModuleCreateWithNameInContext w "test" ctx
  let (_, w) := create_fib_func w test_mod ctx
  let w := LLVMPrintModuleToFile w test_mod "fib.ll" none
  match LLVMOrcCreateLLJIT o w "lljit" none with
  | (.error err, w) =>
    let (main_res, w) := handle_error w err
    some (llvm_shutdown w main_res)
  | (.ok lljit, w) =>
    let (triple, w) := LLVMOrcLLJITGetTripleString w lljit
    match LLVMGetTargetFromTriple o w triple "target" "err_msg" with
    | (true, _, err_msg, w) =>
      let w := fprintf w .stderr "Error getting target for %s: %s\n" [.obj triple, Arg.ptr err_msg]
      let w := LLVMDisposeModule w test_mod
      let w := LLVMContextDispose w ctx
      some (jit_cleanup o w lljit main_res)
    | (false, target, _, w) =>
      let (tm, w) := LLVMCreateTargetMachine w target triple "" "" "LLVMCodeGenLevelNone"
        "LLVMRelocDefault" "LLVMCodeModelDefault"
      -- Create assembly output
      match LLVMTargetMachineEmitToFile o w tm test_mod "fib.s" "LLVMAssemblyFile" "err_msg" with
      | (true, err_msg, w) =>
        let w := fprintf w .stderr "Error emitting assembly: %s\n" [Arg.ptr err_msg]
        let w := LLVMDisposeTargetMachine w tm
        let w := LLVMDisposeModule w test_mod
        let w := LLVMContextDispose w ctx
        some (jit_cleanup o w lljit main_res)
      | (false, _, w) =>
        -- Emit object file for JIT
        match LLVMTargetMachineEmitToMemoryBuffer o w tm test_mod "LLVMObjectFile" "err_msg"
            "obj_buf" with
        | (true, err_msg, _, w) =>
          let w := fprintf w .stderr "Error emitting object: %s\n" [Arg.ptr err_msg]
          let w := LLVMDisposeTargetMachine w tm
          let w := LLVMDisposeModule w test_mod
          let w := LLVMContextDispose w ctx
          some (jit_cleanup o w lljit main_res)
        | (false, _, obj_buf, w) =>
          let (mainjd, w) := LLVMOrcLLJITGetMainJITDylib w lljit
          match LLVMOrcLLJITAddObjectFile o w lljit mainjd obj_buf with
          | (some err, w) =>
            let (main_res, w) := handle_error w err
            some (jit_cleanup o w lljit main_res)
          | (none, w) =>
            match LLVMOrcLLJITLookup o w lljit "fib_addr" "fib" with
            | (.error err, w) =>
              let (main_res, w) := handle_error w err
              some (jit_cleanup o w lljit main_res)
            | (.ok fib_addr, w) =>
              -- Execute the JIT-compiled code
              let fib_arg : Int := 10
              match callNative w fuel fib_addr fib_arg with
              | none => none
              | some (res, w) =>
                let w := printf w "fib(%d) = %d\n" [.int fib_arg, .int res]
                some (jit_cleanup o w lljit main_res)

/-! ## The program and the library's option parser -/

/-- What the library's option parser does with a command line inside
`LLVMParseCommandLineOptions`: it returns to `main` (having set the options it
found), or it ends the process with a status, as it does after printing the
usage for `-help` and after reporting an option it does not know. -/
inductive ParseOutcome
  | returns
  | exits (status : Int)
  deriving DecidableEq, Repr

/-- How a run of the program ends: `main` returns a status, or the library ends
the process inside a call, or the JIT-compiled code does not finish within the
fuel.  `trace` is what the run did until then. -/
inductive Ending
  | returned (status : Int) (trace : List Event)
  | exited (status : Int) (trace : List Event)
  | unfinished
  deriving DecidableEq, Repr

/-- A run of the program on a command line.  `parser` is the library's option
parser, which decides from the command line whether the first call of `main`,
`LLVMParseCommandLineOptions (argc, argv, "")`, returns; if it does not, that call
is all the run does.  The outcomes `o` of the later calls are a parameter of
their own, so that whatever the options set by the parser do to the library is
a choice of `o`. -/
def program (parser : Int → List String → ParseOutcome) (o : Outcomes) (fuel : Nat)
    (argc : Int) (argv : List String) : Ending :=
  match parser argc argv with
  | .exits status =>
    .exited status (LLVMParseCommandLineOptions World.empty argc argv "").trace
  | .returns =>
    match main o fuel argc argv with
    | some r => .returned r.1 r.2.trace
    | none => .unfinished

/-- An option parser for the examples, which does what the library's parser does
on the command lines used there: without arguments after the program name it
returns; for `-help` it prints the usage and ends the process with status `0`;
any other argument is an option it does not know, and it ends the process with
status `1`. -/
def helpParser (argc : Int) (argv : List String) : ParseOutcome :=
  let args := (argv.take argc.toNat).drop 1
  if args = [] then .returns
  else if "-help" ∈ args then .exits 0
  else .exits 1

/-! ## What a run wrote -/

/-- Rendering of the conversions `%d` and `%s` of a C format string. -/
def formatC : List Char → List Arg → List Char
  | '%' :: 'd' :: rest, .int i :: args => (toString i).toList ++ formatC rest args
  | '%' :: 's' :: rest, .str s :: args => s.toList ++ formatC rest args
  | c :: rest, args => c :: formatC rest args
  | [], _ => []

/-- The text a run wrote to a stream. -/
def written (s : Stream) : List Event → List Char
  | [] => []
  | .print s1 fmt args :: rest =>
    if s1 = s then formatC fmt.toList args ++ written s rest else written s rest
  | _ :: rest => written s rest

/-! ## The built function, spelled out -/

/-- The function "fib" as it stands in the module when `create_fib_func` returns. -/
def fibIR : Function :=
  { id := 2, parent := 1, name := "fib", type := .function 32 [32] false,
    paramNames := ["n"],
    blocks :=
      [ { id := 3, name := "entry",
          insts :=
            [ ⟨7, "cond", .icmp .LLVMIntSLE (.param 2 0) (.constInt 32 2)⟩,
              ⟨8, "", .condBr (.inst 7) 4 5⟩ ] },
        { id := 4, name := "return",
          insts := [ ⟨9, "", .ret (.constInt 32 1)⟩ ] },
        { id := 5, name := "recurse",
          insts :=
            [ ⟨10, "arg", .sub (.param 2 0) (.constInt 32 1)⟩,
              ⟨11, "fibx1", .call (.function 32 [32] false) (.func 2) [.inst 10] true⟩,
              ⟨12, "arg", .sub (.param 2 0) (.constInt 32 2)⟩,
              ⟨13, "fibx2", .call (.function 32 [32] false) (.func 2) [.inst 12] true⟩,
              ⟨14, "addresult", .add (.inst 11) (.inst 13)⟩,
              ⟨15, "", .ret (.inst 14)⟩ ] } ] }

/-- The block "recurse" after its first call. -/
def afterCall1 : List Instruction :=
  [ ⟨12, "arg", .sub (.param 2 0) (.constInt 32 2)⟩,
    ⟨13, "fibx2", .call (.function 32 [32] false) (.func 2) [.inst 12] true⟩,
    ⟨14, "addresult", .add (.inst 11) (.inst 13)⟩,
    ⟨15, "", .ret (.inst 14)⟩ ]

/-- The block "recurse" after its second call. -/
def afterCall2 : List Instruction :=
  [ ⟨14, "addresult", .add (.inst 11) (.inst 13)⟩,
    ⟨15, "", .ret (.inst 14)⟩ ]

/-! ## Reference functions -/

/-- The reference function of C1, on the signed value of the argument: `1` when
`n ≤ 2`, otherwise the sum of the values at `n - 1` and `n - 2`, reduced modulo
`2 ^ 32`. -/
def fib_reference (n : Int) : Nat :=
  if n ≤ 2 then 1 else (fib_reference (n - 1) + fib_reference (n - 2)) % 2 ^ 32
termination_by n.toNat
decreasing_by
  all_goals simp_wf
  all_goals omega

/-- The Fibonacci numbers of C2: `F 1 = F 2 = 1`, `F k = F (k - 1) + F (k - 2)`. -/
def F : Nat → Nat
  | 0 => 0
  | 1 => 1
  | 2 => 1
  | k + 3 => F (k + 2) + F (k + 1)

/-! ## Observations on a run of the IR -/

/-- What C9 says of one event of a run of "fib": the block "recurse" is entered
only with an argument above `2` and the block "return" only with one of at
most `2`, and a call passes exactly the caller's argument
less `1` (at `fibx1`) or less `2` (at `fibx2`) as signed numbers, which lies
between `1` and the caller's argument less `1`. -/
def Descends : IREvent → Prop
  | .block _ bb args =>
    (bb = "recurse" → ∀ a ∈ args, 2 < toSigned 32 a.val) ∧
      (bb = "return" → ∀ a ∈ args, toSigned 32 a.val ≤ 2)
  | .call _ callerArgs site _ calleeArgs =>
    ∃ a b, callerArgs = [a] ∧ calleeArgs = [b] ∧ 2 < toSigned 32 a.val ∧
      ((site = "fibx1" ∧ toSigned 32 b.val = toSigned 32 a.val - 1) ∨
        (site = "fibx2" ∧ toSigned 32 b.val = toSigned 32 a.val - 2)) ∧
      1 ≤ toSigned 32 b.val ∧ toSigned 32 b.val ≤ toSigned 32 a.val - 1 ∧
      toSigned 32 b.val < toSigned 32 a.val

/-! ## Observations on a run of `main` -/

/-- The call of `LLVMParseCommandLineOptions` as recorded. -/
def parseEvent (argc : Int) (argv : List String) : Event :=
  .lib .LLVMParseCommandLineOptions [.int argc, .strs argv, .str ""] false

/-- The calls `create_fib_func` makes in `main`, in order (context 0, module 1,
function 2, blocks 3 to 5, builder 6, instructions 7 to 15). -/
def builderCalls : List Event :=
  [ .lib .LLVMInt32TypeInContext [.obj 0] false,
    .lib .LLVMInt32TypeInContext [.obj 0] false,
    .lib .LLVMFunctionType [.type (.int 32), .types [(.int 32)], .int 1, .int 0] false,
    .lib .LLVMAddFunction [.obj 1, .str "fib", .type (.function 32 [32] false)] false,
    .lib .LLVMAppendBasicBlockInContext [.obj 0, .value (.func 2), .str "entry"] false,
    .lib .LLVMAppendBasicBlockInContext [.obj 0, .value (.func 2), .str "return"] false,
    .lib .LLVMAppendBasicBlockInContext [.obj 0, .value (.func 2), .str "recurse"] false,
    .lib .LLVMInt32TypeInContext [.obj 0] false,
    .lib .LLVMConstInt [.type (.int 32), .int 1, .int 0] false,
    .lib .LLVMInt32TypeInContext [.obj 0] false,
    .lib .LLVMConstInt [.type (.int 32), .int 2, .int 0] false,
    .lib .LLVMGetParam [.value (.func 2), .int 0] false,
    .lib .LLVMSetValueName [.value (.param 2 0), .str "n"] false,
    .lib .LLVMCreateBuilderInContext [.obj 0] false,
    .lib .LLVMPositionBuilderAtEnd [.obj 6, .obj 3] false,
    .lib .LLVMBuildICmp [.obj 6, .pred .LLVMIntSLE, .value (.param 2 0),
        .value (.constInt 32 2), .str "cond"] false,
    .lib .LLVMBuildCondBr [.obj 6, .value (.inst 7), .obj 4, .obj 5] false,
    .lib .LLVMPositionBuilderAtEnd [.obj 6, .obj 4] false,
    .lib .LLVMBuildRet [.obj 6, .value (.constInt 32 1)] false,
    .lib .LLVMPositionBuilderAtEnd [.obj 6, .obj 5] false,
    .lib .LLVMBuildSub [.obj 6, .value (.param 2 0), .value (.constInt 32 1), .str "arg"] false,
    .lib .LLVMBuildCall2 [.obj 6, .type (.function 32 [32] false), .value (.func 2),
        .values [(.inst 10)], .int 1, .str "fibx1"] false,
    .lib .LLVMSetTailCall [.value (.inst 11), .int 1] false,
    .lib .LLVMBuildSub [.obj 6, .value (.param 2 0), .value (.constInt 32 2), .str "arg"] false,
    .lib .LLVMBuildCall2 [.obj 6, .type (.function 32 [32] false), .value (.func 2),
        .values [(.inst 12)], .int 1, .str "fibx2"] false,
    .lib .LLVMSetTailCall [.value (.inst 13), .int 1] false,
    .lib .LLVMBuildAdd [.obj 6, .value (.inst 11), .value (.inst 13), .str "addresult"] false,
    .lib .LLVMBuildRet [.obj 6, .value (.inst 14)] false,
    .lib .LLVMDisposeBuilder [.obj 6] false ]

/-- What `main` does after its first call and up to the printing of the module. -/
def prologue : List Event :=
  [ .lib .LLVMInitializeNativeTarget [] false,
    .lib .LLVMInitializeNativeAsmPrinter [] false,
    .lib .LLVMContextCreate [] false,
    .lib .LLVMModuleCreateWithNameInContext [.str "test", .obj 0] false ] ++
  builderCalls ++
  [ .lib .LLVMPrintModuleToFile [.obj 1, .str "fib.ll", .null] false ]

/-- What `handle_error` does with the error object `err`. -/
def reportCalls (err : Nat) : List Event :=
  [ .lib .LLVMGetErrorMessage [.obj err] false,
    .print .stderr "Error: %s\n" [.obj (err + 1)],
    .lib .LLVMDisposeErrorMessage [.obj (err + 1)] false ]

/-- What `main` does from the label `jit_cleanup` on; `next` is the number the
next object gets. -/
def cleanupCalls (o : Outcomes) (next : Nat) : List Event :=
  .lib .LLVMOrcDisposeLLJIT [.obj 16] o.disposeLLJIT ::
    ((if o.disposeLLJIT then reportCalls next else []) ++ [.lib .LLVMShutdown [] false])

/-- The disposals on the paths on which target lookup or an emission failed. -/
def disposeIRCalls : List Event :=
  [ .lib .LLVMDisposeModule [.obj 1] false, .lib .LLVMContextDispose [.obj 0] false ]

/-- What `main` does after printing the module, path by path (session 16,
triple 17, target 18, target machine 19, buffer 21, dylib 22). -/
def epilogue (o : Outcomes) : List Event :=
  if o.createLLJIT then
    .lib .LLVMOrcCreateLLJIT [.out "lljit", .null] true ::
      (reportCalls 16 ++ [.lib .LLVMShutdown [] false])
  else
    [ .lib .LLVMOrcCreateLLJIT [.out "lljit", .null] false,
      .lib .LLVMOrcLLJITGetTripleString [.obj 16] false ] ++
    if o.getTargetFromTriple then
      [ .lib .LLVMGetTargetFromTriple [.obj 17, .out "target", .out "err_msg"] true,
        .print .stderr "Error getting target for %s: %s\n" [.obj 17, .obj 18] ] ++
      disposeIRCalls ++ cleanupCalls o 19
    else
      [ .lib .LLVMGetTargetFromTriple [.obj 17, .out "target", .out "err_msg"] false,
        .lib .LLVMCreateTargetMachine
          [.obj 18, .obj 17, .str "", .str "", .const "LLVMCodeGenLevelNone",
            .const "LLVMRelocDefault", .const "LLVMCodeModelDefault"] false ] ++
      if o.emitToFile then
        [ .lib .LLVMTargetMachineEmitToFile
            [.obj 19, .obj 1, .str "fib.s", .const "LLVMAssemblyFile", .out "err_msg"] true,
          .print .stderr "Error emitting assembly: %s\n" [.obj 20],
          .lib .LLVMDisposeTargetMachine [.obj 19] false ] ++
        disposeIRCalls ++ cleanupCalls o 21
      else
        [ .lib .LLVMTargetMachineEmitToFile
            [.obj 19, .obj 1, .str "fib.s", .const "LLVMAssemblyFile", .out "err_msg"] false ] ++
        if o.emitToMemoryBuffer then
          [ .lib .LLVMTargetMachineEmitToMemoryBuffer
              [.obj 19, .obj 1, .const "LLVMObjectFile", .out "err_msg", .out "obj_buf"] true,
            .print .stderr "Error emitting object: %s\n" [.obj 21],
            .lib .LLVMDisposeTargetMachine [.obj 19] false ] ++
          disposeIRCalls ++ cleanupCalls o 22
        else
          [ .lib .LLVMTargetMachineEmitToMemoryBuffer
              [.obj 19, .obj 1, .const "LLVMObjectFile", .out "err_msg", .out "obj_buf"] false,
            .lib .LLVMOrcLLJITGetMainJITDylib [.obj 16] false ] ++
          if o.addObjectFile then
            .lib .LLVMOrcLLJITAddObjectFile [.obj 16, .obj 22, .obj 21] true ::
              (reportCalls 23 ++ cleanupCalls o 25)
          else
            .lib .LLVMOrcLLJITAddObjectFile [.obj 16, .obj 22, .obj 21] false ::
            if o.lookup then
              .lib .LLVMOrcLLJITLookup [.obj 16, .out "fib_addr", .str "fib"] true ::
                (reportCalls 24 ++ cleanupCalls o 26)
            else
              [ .lib .LLVMOrcLLJITLookup [.obj 16, .out "fib_addr", .str "fib"] false,
                .native 16 2 [10],
                .print .stdout "fib(%d) = %d\n" [.int 10, .int 55] ] ++
              cleanupCalls o 25

/-- The exit status of `main`, path by path. -/
def exitStatus (o : Outcomes) : Int :=
  if o.createLLJIT then 1
  else if o.getTargetFromTriple || o.emitToFile || o.emitToMemoryBuffer then
    (if o.disposeLLJIT then 1 else 0)
  else if o.addObjectFile || o.lookup then 1
  else if o.disposeLLJIT then 1 else 0

/-- Exit status of the run of `main` with outcomes `o`, and what it does after its
first call, spelled out; `main_eq` proves that this is what `main` does. -/
def run0 (o : Outcomes) : Int × List Event :=
  (exitStatus o, prologue ++ epilogue o)

/-- Is the event a call of `fn`? -/
def Event.isCall (fn : Api) : Event → Bool
  | .lib f _ _ => decide (f = fn)
  | _ => false

/-- Is the event a call of `fn` that reported failure? -/
def Event.isFailed (fn : Api) : Event → Bool
  | .lib f _ failed => decide (f = fn) && failed
  | _ => false

/-- Is the event a call of `fn` that succeeded? -/
def Event.isOk (fn : Api) : Event → Bool
  | .lib f _ failed => decide (f = fn) && !failed
  | _ => false

/-- How often `fn` was called. -/
def calls (fn : Api) (t : List Event) : Nat :=
  t.countP (Event.isCall fn)

/-- The calls through the JIT function pointer: address and arguments. -/
def nativeCalls : List Event → List (Nat × List Int)
  | [] => []
  | .native _ a args :: rest => (a, args) :: nativeCalls rest
  | _ :: rest => nativeCalls rest

/-- The steps of the lifecycle named by the specification. -/
inductive Step
  | context | module | builder | jit | emission | loading | lookup | execution | teardown
  deriving DecidableEq, Repr

/-- Position of a step in the lifecycle order. -/
def Step.rank : Step → Nat
  | .context => 0
  | .module => 1
  | .builder => 2
  | .jit => 3
  | .emission => 4
  | .loading => 5
  | .lookup => 6
  | .execution => 7
  | .teardown => 8

/-- The lifecycle step a library function belongs to.  Outside the lifecycle are
start-up (`LLVMParseCommandLineOptions`, target initialisation), the printing of
the module, and error reporting. -/
def Api.step : Api → Option Step
  | .LLVMContextCreate => some .context
  | .LLVMModuleCreateWithNameInContext => some .module
  | .LLVMInt32TypeInContext | .LLVMFunctionType | .LLVMAddFunction
  | .LLVMAppendBasicBlockInContext | .LLVMConstInt | .LLVMGetParam | .LLVMSetValueName
  | .LLVMCreateBuilderInContext | .LLVMPositionBuilderAtEnd
  | .LLVMBuildICmp | .LLVMBuildCondBr | .LLVMBuildRet | .LLVMBuildSub | .LLVMBuildCall2
  | .LLVMSetTailCall | .LLVMBuildAdd | .LLVMDisposeBuilder => some .builder
  | .LLVMOrcCreateLLJIT => some .jit
  | .LLVMOrcLLJITGetTripleString | .LLVMGetTargetFromTriple | .LLVMCreateTargetMachine
  | .LLVMTargetMachineEmitToFile | .LLVMTargetMachineEmitToMemoryBuffer => some .emission
  | .LLVMOrcLLJITGetMainJITDylib | .LLVMOrcLLJITAddObjectFile => some .loading
  | .LLVMOrcLLJITLookup => some .lookup
  | .LLVMDisposeTargetMachine | .LLVMDisposeModule | .LLVMContextDispose
  | .LLVMOrcDisposeLLJIT | .LLVMShutdown => some .teardown
  | .LLVMParseCommandLineOptions | .LLVMInitializeNativeTarget
  | .LLVMInitializeNativeAsmPrinter | .LLVMPrintModuleToFile
  | .LLVMGetErrorMessage | .LLVMDisposeErrorMessage => none

/-- The lifecycle step of an event; a call of the JIT-compiled code is the
execution step. -/
def Event.step : Event → Option Step
  | .lib fn _ _ => fn.step
  | .native _ _ _ => some .execution
  | .print _ _ _ => none

/-- The calls whose failure `main` tests before going on. -/
def fallibleSteps : List Api :=
  [.LLVMOrcCreateLLJIT, .LLVMGetTargetFromTriple, .LLVMTargetMachineEmitToFile,
    .LLVMTargetMachineEmitToMemoryBuffer, .LLVMOrcLLJITAddObjectFile, .LLVMOrcLLJITLookup]

/-- A fallible step that failed. -/
def Event.failedStep : Event → Bool
  | .lib fn _ failed => decide (fn ∈ fallibleSteps) && failed
  | _ => false

/-- The steps of a run are in lifecycle order. -/
def InLifecycleOrder (t : List Event) : Prop :=
  (t.filterMap Event.step).Pairwise fun a b => a.rank ≤ b.rank

/-- No step among `steps` is reached after a fallible step failed. -/
def ReachedOnlyAfterSuccess (steps : List Step) (t : List Event) : Prop :=
  t.Pairwise fun x e => x.failedStep = true → ∀ s ∈ steps, e.step ≠ some s

/-- Every step. -/
def allSteps : List Step :=
  [.context, .module, .builder, .jit, .emission, .loading, .lookup, .execution, .teardown]

/-- Every step before teardown. -/
def forwardSteps : List Step :=
  [.context, .module, .builder, .jit, .emission, .loading, .lookup, .execution]

instance (t : List Event) : Decidable (InLifecycleOrder t) := by
  unfold InLifecycleOrder; infer_instance

instance (steps : List Step) (t : List Event) : Decidable (ReachedOnlyAfterSuccess steps t) := by
  unfold ReachedOnlyAfterSuccess; infer_instance

/-- The library objects a value refers to. -/
def LLVMValueRef.objs : LLVMValueRef → List Nat
  | .constInt _ _ => []
  | .param fn _ => [fn]
  | .inst id => [id]
  | .func fn => [fn]

/-- The library objects an argument refers to. -/
def Arg.objs : Arg → List Nat
  | .obj h => [h]
  | .value v => v.objs
  | .values vs => (vs.map LLVMValueRef.objs).flatten
  | _ => []

/-- The objects an event uses: those among its arguments; for a call of
JIT-compiled code, the session that owns the code. -/
def Event.uses : Event → List Nat
  | .lib _ args _ => (args.map Arg.objs).flatten
  | .native session _ _ => [session]
  | .print _ _ args => (args.map Arg.objs).flatten

/-- Position of the argument whose lifetime a call ends: the `Dispose` functions
destroy their operand, `LLVMGetErrorMessage` consumes the error, and
`LLVMOrcLLJITAddObjectFile` takes ownership of the buffer. -/
def Api.consumes : Api → Option Nat
  | .LLVMDisposeBuilder | .LLVMDisposeErrorMessage | .LLVMDisposeModule
  | .LLVMContextDispose | .LLVMDisposeTargetMachine | .LLVMOrcDisposeLLJIT
  | .LLVMGetErrorMessage => some 0
  | .LLVMOrcLLJITAddObjectFile => some 2
  | _ => none

/-- The objects whose lifetime an event ends. -/
def Event.disposes : Event → List Nat
  | .lib fn args _ =>
    match fn.consumes with
    | some i =>
      match args.get? i with
      | some a => a.objs
      | none => []
    | none => []
  | _ => []

/-- No event uses (or disposes again) an object an earlier event disposed. -/
def NoUseAfterDispose (t : List Event) : Prop :=
  t.Pairwise fun a b => ∀ h ∈ a.disposes, h ∉ b.uses

instance (t : List Event) : Decidable (NoUseAfterDispose t) := by
  unfold NoUseAfterDispose; infer_instance

/-- The file a call writes: the library functions the program uses that take the
name of an output file, with that name. -/
def Event.file : Event → Option (Api × String)
  | .lib .LLVMPrintModuleToFile (_ :: .str f :: _) _ => some (.LLVMPrintModuleToFile, f)
  | .lib .LLVMTargetMachineEmitToFile (_ :: _ :: .str f :: _) _ =>
    some (.LLVMTargetMachineEmitToFile, f)
  | _ => none

/-- The file-writing calls of a run, in order. -/
def filesWritten (t : List Event) : List (Api × String) :=
  t.filterMap Event.file

/-- Does the call ask for object code (`LLVMObjectFile`)? -/
def Event.emitsObject : Event → Bool
  | .lib _ args _ => args.contains (.const "LLVMObjectFile")
  | _ => false

/-- The calls that return an `LLVMErrorRef`. -/
def errorRefCalls : List Api :=
  [.LLVMOrcCreateLLJIT, .LLVMOrcLLJITAddObjectFile, .LLVMOrcLLJITLookup, .LLVMOrcDisposeLLJIT]

/-- A call returning `LLVMErrorRef` that reported an error. -/
def Event.reportsError : Event → Bool
  | .lib fn _ failed => decide (fn ∈ errorRefCalls) && failed
  | _ => false

/-- A failed call of one of the functions that report failure through an
`LLVMBool` and a message. -/
def Event.reportsFlag : Event → Bool
  | .lib fn _ failed =>
    decide (fn ∈ [Api.LLVMGetTargetFromTriple, .LLVMTargetMachineEmitToFile,
      .LLVMTargetMachineEmitToMemoryBuffer]) && failed
  | _ => false

/-! ## The built function and its runs -/

/-- Whatever was recorded before, `create_fib_func` adds the same calls and
leaves the function `fibIR` in the module. -/
theorem create_fib_func_eq (t : List Event) :
    create_fib_func ⟨2, t, [], [], [], []⟩ 1 0
      = (.func 2, ⟨16, t ++ builderCalls, [fibIR], [], [], []⟩) := by
  simp [builderCalls, create_fib_func, LLVMInt32TypeInContext, LLVMFunctionType, LLVMAddFunction,
    LLVMAppendBasicBlockInContext, LLVMConstInt, LLVMGetParam, LLVMSetValueName,
    LLVMCreateBuilderInContext, LLVMPositionBuilderAtEnd, LLVMBuildICmp, LLVMBuildCondBr,
    LLVMBuildRet, LLVMBuildSub, LLVMBuildAdd, LLVMBuildCall2, LLVMSetTailCall, LLVMDisposeBuilder,
    World.insert, World.alloc, World.log, World.updFunc, World.updInst, fibIR,
    LLVMTypeRef.bits, List.lookup, afterCall1]

theorem fibProgram_eq : fibProgram = [fibIR] := by
  have h : ({ World.empty with fresh := 2 } : World) = ⟨2, [], [], [], [], []⟩ := rfl
  unfold fibProgram
  rw [h, create_fib_func_eq]

theorem fibIR_blocks : fibIR.blocks =
    [ { id := 3, name := "entry",
        insts :=
          [ ⟨7, "cond", .icmp .LLVMIntSLE (.param 2 0) (.constInt 32 2)⟩,
            ⟨8, "", .condBr (.inst 7) 4 5⟩ ] },
      { id := 4, name := "return",
        insts := [ ⟨9, "", .ret (.constInt 32 1)⟩ ] },
      { id := 5, name := "recurse",
        insts :=
          ⟨10, "arg", .sub (.param 2 0) (.constInt 32 1)⟩ ::
          ⟨11, "fibx1", .call (.function 32 [32] false) (.func 2) [.inst 10] true⟩ ::
          afterCall1 } ] := rfl

theorem fibIR_name : fibIR.name = "fib" := rfl

theorem fibIR_id : fibIR.id = 2 := rfl

theorem fibIR_parent : fibIR.parent = 1 := rfl

theorem toSigned_two : toSigned 32 2 = 2 := by decide

theorem toSigned_small (n : Nat) (h : n < 2 ^ 31) : toSigned 32 n = n := by
  unfold toSigned
  rw [if_pos]
  simpa using h

theorem toSigned_pos (n : Nat) (hn : n < 2 ^ 32) (h : 2 < toSigned 32 n) : n < 2 ^ 31 := by
  by_contra hc
  have h1 : ¬ n < 2 ^ (32 - 1) := by simpa using hc
  simp only [toSigned, h1, if_false] at h
  norm_num at hn h1
  omega

theorem exec_fib_base (fuel n : Nat) (h : toSigned 32 n ≤ 2) :
    exec [fibIR] (fuel + 6) (.call fibIR [⟨32, n⟩])
      = some (⟨32, 1⟩,
          [IREvent.block "fib" "entry" [⟨32, n⟩], IREvent.block "fib" "return" [⟨32, n⟩]]) := by
  simp [exec, fibIR_blocks, fibIR_name, evalValue, icmpHolds, toSigned_two, h, List.lookup]

theorem exec_fib_call1 (m n : Nat) (h : 2 < toSigned 32 n) :
    exec [fibIR] (m + 7) (.call fibIR [⟨32, n⟩])
      = match exec [fibIR] m (.call fibIR [⟨32, (n + 4294967295) % 4294967296⟩]) with
        | none => none
        | some (r1, t1) =>
          match exec [fibIR] m (.insts fibIR [⟨32, n⟩]
              [(11, r1), (10, ⟨32, (n + 4294967295) % 4294967296⟩), (7, ⟨1, 0⟩)] afterCall1) with
          | none => none
          | some (v, t2) =>
            some (v,
              IREvent.block "fib" "entry" [⟨32, n⟩] ::
              IREvent.block "fib" "recurse" [⟨32, n⟩] ::
              IREvent.call "fib" [⟨32, n⟩] "fibx1" "fib" [⟨32, (n + 4294967295) % 4294967296⟩] ::
                (t1 ++ t2)) := by
  have h2 : ¬ toSigned 32 n ≤ 2 := not_le.mpr h
  simp [exec, fibIR_blocks, fibIR_name, fibIR_id, evalValue, evalValues, icmpHolds,
    toSigned_two, h2, List.lookup]
  cases exec [fibIR] m (.call fibIR [⟨32, (n + 4294967295) % 4294967296⟩]) with
  | none => rfl
  | some p =>
    obtain ⟨r1, t1⟩ := p
    simp only
    cases exec [fibIR] m (.insts fibIR [⟨32, n⟩]
              [(11, r1), (10, ⟨32, (n + 4294967295) % 4294967296⟩), (7, ⟨1, 0⟩)] afterCall1) with
    | none => rfl
    | some q => rfl

theorem exec_fib_call2 (j n : Nat) (env : List (Nat × IntVal)) :
    exec [fibIR] (j + 2) (.insts fibIR [⟨32, n⟩] env afterCall1)
      = match exec [fibIR] j (.call fibIR [⟨32, (n + 4294967294) % 4294967296⟩]) with
        | none => none
        | some (r2, t2) =>
          match exec [fibIR] j (.insts fibIR [⟨32, n⟩]
              ((13, r2) :: (12, ⟨32, (n + 4294967294) % 4294967296⟩) :: env) afterCall2) with
          | none => none
          | some (v, t3) =>
            some (v,
              IREvent.call "fib" [⟨32, n⟩] "fibx2" "fib" [⟨32, (n + 4294967294) % 4294967296⟩] ::
                (t2 ++ t3)) := by
  simp [exec, afterCall1, afterCall2, fibIR_name, fibIR_id, evalValue, evalValues, List.lookup]

theorem exec_fib_sum (i : Nat) (args : List IntVal) (r1 r2 x : IntVal)
    (env : List (Nat × IntVal)) (h : r1.bits = r2.bits) :
    exec [fibIR] (i + 2) (.insts fibIR args ((13, r2) :: (12, x) :: (11, r1) :: env) afterCall2)
      = some (⟨r1.bits, (r1.val + r2.val) % 2 ^ r1.bits⟩, []) := by
  simp [exec, afterCall2, evalValue, List.lookup, h]

theorem fib_reference_base (n : Int) (h : n ≤ 2) : fib_reference n = 1 := by
  rw [fib_reference]
  simp [h]

theorem fib_reference_step (n : Int) (h : 2 < n) :
    fib_reference n = (fib_reference (n - 1) + fib_reference (n - 2)) % 2 ^ 32 := by
  rw [fib_reference]
  simp [not_le.mpr h]

theorem fib_reference_lt (n : Int) : fib_reference n < 2 ^ 32 := by
  by_cases h : n ≤ 2
  · rw [fib_reference_base n h]; norm_num
  · rw [fib_reference_step n (not_le.mp h)]
    exact Nat.mod_lt _ (by norm_num)

/-- Core lemma: with fuel `7 * s + 6` a call of "fib" on a word whose signed value
is at most `s` returns the reference value, and every event of the run descends. -/
theorem exec_fib (s : Nat) : ∀ (n fuel : Nat), n < 2 ^ 32 → (toSigned 32 n).toNat ≤ s →
    7 * s + 6 ≤ fuel →
    ∃ t, exec [fibIR] fuel (.call fibIR [⟨32, n⟩])
        = some (⟨32, fib_reference (toSigned 32 n)⟩, t) ∧ ∀ e ∈ t, Descends e := by
  induction s using Nat.strong_induction_on with
  | _ s ih =>
    intro n fuel hn hs hf
    by_cases h : toSigned 32 n ≤ 2
    · obtain ⟨k, rfl⟩ : ∃ k, fuel = k + 6 := ⟨fuel - 6, by omega⟩
      refine ⟨_, by rw [exec_fib_base k n h, fib_reference_base _ h], ?_⟩
      intro e he
      simp only [List.mem_cons, List.mem_singleton, List.not_mem_nil, or_false] at he
      rcases he with rfl | rfl <;> simp [Descends, h]
    · have h2 : 2 < toSigned 32 n := not_le.mp h
      have hlt : n < 2 ^ 31 := toSigned_pos n hn h2
      have hsn : toSigned 32 n = n := toSigned_small n hlt
      rw [hsn] at h2 hs
      have hn3 : 3 ≤ n := by omega
      have e1 : (n + 4294967295) % 4294967296 = n - 1 := by omega
      have e2 : (n + 4294967294) % 4294967296 = n - 2 := by omega
      have s1 : toSigned 32 (n - 1) = ((n - 1 : Nat) : Int) := toSigned_small _ (by omega)
      have s2 : toSigned 32 (n - 2) = ((n - 2 : Nat) : Int) := toSigned_small _ (by omega)
      obtain ⟨k, rfl⟩ : ∃ k, fuel = k + 4 + 7 := ⟨fuel - 11, by omega⟩
      obtain ⟨t1, ht1, hd1⟩ := ih (s - 1) (by omega) (n - 1) (k + 4) (by omega)
        (by rw [s1]; omega) (by omega)
      obtain ⟨t2, ht2, hd2⟩ := ih (s - 2) (by omega) (n - 2) (k + 2) (by omega)
        (by rw [s2]; omega) (by omega)
      have hstep : fib_reference (toSigned 32 n)
          = (fib_reference (toSigned 32 (n - 1)) + fib_reference (toSigned 32 (n - 2))) % 2 ^ 32 := by
        have c1 : ((n - 1 : Nat) : Int) = (n : Int) - 1 := by omega
        have c2 : ((n - 2 : Nat) : Int) = (n : Int) - 2 := by omega
        rw [hsn, s1, s2, c1, c2, fib_reference_step _ h2]
      refine ⟨IREvent.block "fib" "entry" [⟨32, n⟩] ::
          IREvent.block "fib" "recurse" [⟨32, n⟩] ::
          IREvent.call "fib" [⟨32, n⟩] "fibx1" "fib" [⟨32, n - 1⟩] ::
            (t1 ++ IREvent.call "fib" [⟨32, n⟩] "fibx2" "fib" [⟨32, n - 2⟩] :: (t2 ++ [])),
        ?_, ?_⟩
      · rw [exec_fib_call1 (k + 4) n (by rw [hsn]; exact h2), e1, ht1]
        simp only
        rw [show k + 4 = (k + 2) + 2 from rfl, exec_fib_call2 (k + 2) n, e2, ht2]
        simp only
        rw [show k + 2 = k + 2 from rfl, exec_fib_sum k _ ⟨32, fib_reference (toSigned 32 (n - 1))⟩
          ⟨32, fib_reference (toSigned 32 (n - 2))⟩ _ _ rfl, hstep]
      · intro e he
        simp only [List.mem_cons, List.mem_append, List.not_mem_nil, or_false] at he
        rcases he with rfl | rfl | rfl | he | rfl | he
        · simp [Descends]
        · simp [Descends, hsn]; omega
        · refine ⟨_, _, rfl, rfl, ?_, Or.inl ⟨rfl, ?_⟩, ?_, ?_, ?_⟩ <;>
            simp only [hsn, s1] <;> omega
        · exact hd1 e he
        · refine ⟨_, _, rfl, rfl, ?_, Or.inr ⟨rfl, ?_⟩, ?_, ?_, ?_⟩ <;>
            simp only [hsn, s2] <;> omega
        · exact hd2 e he

theorem callNamed_fib (fuel : Nat) (args : List IntVal) :
    callNamed fibProgram fuel "fib" args = exec [fibIR] fuel (.call fibIR args) := by
  rw [fibProgram_eq]
  simp [callNamed, fibIR_name]

theorem F_step (k : Nat) : F (k + 3) = F (k + 2) + F (k + 1) := by
  rw [F]

theorem F_eq_fib (k : Nat) : F k = Nat.fib k := by
  induction k using Nat.strong_induction_on with
  | _ k ih =>
    match k with
    | 0 => rfl
    | 1 => rfl
    | 2 => rfl
    | j + 3 =>
      have h := @Nat.fib_add_two (j + 1)
      rw [F_step, ih (j + 2) (by omega), ih (j + 1) (by omega)]
      show Nat.fib (j + 2) + Nat.fib (j + 1) = Nat.fib (j + 1 + 2)
      rw [h]
      exact Nat.add_comm _ _

theorem fib_reference_eq_F (n : Nat) (h : 1 ≤ n) : fib_reference (n : Int) = F n % 2 ^ 32 := by
  induction n using Nat.strong_induction_on with
  | _ n ih =>
    by_cases h2 : n ≤ 2
    · rw [fib_reference_base _ (by exact_mod_cast h2)]
      interval_cases n <;> rfl
    · obtain ⟨k, rfl⟩ : ∃ k, n = k + 3 := ⟨n - 3, by omega⟩
      have c1 : ((k + 3 : Nat) : Int) - 1 = ((k + 2 : Nat) : Int) := by omega
      have c2 : ((k + 3 : Nat) : Int) - 2 = ((k + 1 : Nat) : Int) := by omega
      rw [fib_reference_step _ (by omega), c1, c2, ih (k + 2) (by omega) (by omega),
        ih (k + 1) (by omega) (by omega), F_step, ← Nat.add_mod]

theorem fib_reference_ten : fib_reference (toSigned 32 10) = 55 := by
  rw [toSigned_small 10 (by norm_num)]
  exact fib_reference_eq_F 10 (by norm_num)

/-! ## C1, C2, C9: the function that is built -/

/-- C1: the function `create_fib_func` builds is "fib" of type `i32 (i32)` with
the single parameter "n" and the blocks "entry", "return", "recurse", and it
denotes the reference function: for every 32-bit word `n`, a call of it (with
fuel `7 * s + 6`, `s` the signed value of `n`, or `0` if that is negative)
returns `fib_reference` at the signed value of `n`, that is `1` when `n ≤ 2`
as signed numbers and `(fib (n - 1) + fib (n - 2)) mod 2 ^ 32` otherwise. -/
theorem fib_denotes_reference (n fuel : Nat) (hn : n < 2 ^ 32)
    (hf : 7 * (toSigned 32 n).toNat + 6 ≤ fuel) :
    fibProgram.map (fun f => (f.name, f.type, f.paramNames, f.blocks.map BasicBlock.name))
        = [("fib", .function 32 [32] false, ["n"], ["entry", "return", "recurse"])] ∧
      (callNamed fibProgram fuel "fib" [⟨32, n⟩]).map Prod.fst
        = some ⟨32, fib_reference (toSigned 32 n)⟩ := by
  refine ⟨by rw [fibProgram_eq]; rfl, ?_⟩
  obtain ⟨t, ht, -⟩ := exec_fib (toSigned 32 n).toNat n fuel hn (le_refl _) hf
  rw [callNamed_fib, ht]
  rfl

/-- C1 at the word `10` with fuel `76`. -/
theorem fib_denotes_reference_witness :
    (10 < 2 ^ 32 ∧ 7 * (toSigned 32 10).toNat + 6 ≤ 76) ∧
      (fibProgram.map (fun f => (f.name, f.type, f.paramNames, f.blocks.map BasicBlock.name))
          = [("fib", .function 32 [32] false, ["n"], ["entry", "return", "recurse"])] ∧
        (callNamed fibProgram 76 "fib" [⟨32, 10⟩]).map Prod.fst
          = some ⟨32, fib_reference (toSigned 32 10)⟩) :=
  ⟨⟨by decide, by decide⟩, fib_denotes_reference 10 76 (by decide) (by decide)⟩

/-- C2: for every 32-bit word `n` whose signed value is at least `1`, a call of
the built "fib" (with enough fuel) returns the Fibonacci number `F n` reduced
modulo `2 ^ 32`, where `F 1 = F 2 = 1` and `F k = F (k - 1) + F (k - 2)`; `F` is
the Fibonacci sequence `Nat.fib`. -/
theorem fib_computes_fibonacci (n fuel : Nat) (hn : n < 2 ^ 32) (h1 : 1 ≤ toSigned 32 n)
    (hf : 7 * (toSigned 32 n).toNat + 6 ≤ fuel) :
    (callNamed fibProgram fuel "fib" [⟨32, n⟩]).map Prod.fst
        = some ⟨32, F (toSigned 32 n).toNat % 2 ^ 32⟩ ∧
      F (toSigned 32 n).toNat = Nat.fib (toSigned 32 n).toNat := by
  refine ⟨?_, F_eq_fib _⟩
  obtain ⟨t, ht, -⟩ := exec_fib (toSigned 32 n).toNat n fuel hn (le_refl _) hf
  have hs : toSigned 32 n = (((toSigned 32 n).toNat : Nat) : Int) := by omega
  rw [callNamed_fib, ht, hs, fib_reference_eq_F _ (by omega), ← hs]
  rfl

/-- C2 at the word `10` with fuel `76`. -/
theorem fib_computes_fibonacci_witness :
    (10 < 2 ^ 32 ∧ 1 ≤ toSigned 32 10 ∧ 7 * (toSigned 32 10).toNat + 6 ≤ 76) ∧
      ((callNamed fibProgram 76 "fib" [⟨32, 10⟩]).map Prod.fst
          = some ⟨32, F (toSigned 32 10).toNat % 2 ^ 32⟩ ∧
        F (toSigned 32 10).toNat = Nat.fib (toSigned 32 10).toNat) :=
  ⟨⟨by decide, by decide, by decide⟩,
    fib_computes_fibonacci 10 76 (by decide) (by decide) (by decide)⟩

/-- C9: for every 32-bit word `n` the run of the built "fib" ends (fuel linear in
the signed value of `n` is enough), and in it the block "recurse" is entered only
with an argument above `2`; each recursive call passes the caller's argument less
`1` or less `2` without wrapping, a value between `1` and the caller's argument
less `1`, hence strictly smaller; an activation with argument at most `2` enters
"return" and calls nothing. -/
theorem fib_terminates (n fuel : Nat) (hn : n < 2 ^ 32)
    (hf : 7 * (toSigned 32 n).toNat + 6 ≤ fuel) :
    ∃ v t, callNamed fibProgram fuel "fib" [⟨32, n⟩] = some (v, t) ∧ ∀ e ∈ t, Descends e := by
  obtain ⟨t, ht, hd⟩ := exec_fib (toSigned 32 n).toNat n fuel hn (le_refl _) hf
  exact ⟨_, t, by rw [callNamed_fib, ht], hd⟩

/-- C9 at the largest positive word, `2 ^ 31 - 1`. -/
theorem fib_terminates_witness :
    (2147483647 < 2 ^ 32 ∧ 7 * (toSigned 32 2147483647).toNat + 6 ≤ 15032385535) ∧
      ∃ v t, callNamed fibProgram 15032385535 "fib" [⟨32, 2147483647⟩] = some (v, t) ∧
        ∀ e ∈ t, Descends e :=
  ⟨⟨by decide, by decide⟩, fib_terminates 2147483647 15032385535 (by decide) (by decide)⟩

/-! ## Runs of `main` -/

/-- A call of the loaded "fib" on `10` with fuel at least `76`. -/
theorem callNative_fib (w : World) (j k : Nat) (hl : w.loaded = [(j, fibIR)]) :
    callNative w (k + 76) 2 10 = some (55, w.emit (.native j 2 [10])) := by
  obtain ⟨t, ht, -⟩ := exec_fib 10 10 (k + 76) (by norm_num)
    (by rw [toSigned_small 10 (by norm_num)]; rfl) (by omega)
  have h10 : ofSigned 32 10 = 10 := by decide
  have h55 : toSigned 32 55 = 55 := by decide
  simp only [callNative, hl, fibIR_id, List.find?, List.map, decide_True, h10, ht,
    fib_reference_ten, h55]

theorem callNative_loaded (w : World) (k : Nat) (hl : w.loaded.map Prod.snd = [fibIR]) :
    callNative w (k + 76) 2 10
      = some (55, w.emit (.native ((w.loaded.map Prod.fst).headD 0) 2 [10])) := by
  match h : w.loaded, hl with
  | [(j, f)], hl =>
    simp only [List.map, List.cons.injEq, and_true] at hl
    subst hl
    rw [callNative_fib w j k h]
    rfl

/-- With fuel for the call of "fib" on `10`, every run of `main` returns; its exit
status and all it does after its first call are those of `run0`. -/
theorem main_eq (o : Outcomes) (k : Nat) (argc : Int) (argv : List String) :
    (main o (k + 76) argc argv).map (fun r => (r.1, r.2.trace))
      = some ((run0 o).1, parseEvent argc argv :: (run0 o).2) := by
  obtain ⟨a, b, c, d, e, f, g⟩ := o
  cases a
  · cases b
    · cases c
      · cases d
        · cases e
          · cases f
            · cases g <;> simp [main, LLVMParseCommandLineOptions, LLVMInitializeNativeTarget,
    LLVMInitializeNativeAsmPrinter, LLVMContextCreate, LLVMModuleCreateWithNameInContext,
    LLVMPrintModuleToFile, LLVMOrcCreateLLJIT, handle_error, llvm_shutdown, LLVMShutdown,
    LLVMGetErrorMessage, LLVMDisposeErrorMessage, fprintf, printf, World.emit,
    LLVMOrcLLJITGetTripleString, LLVMGetTargetFromTriple, LLVMDisposeModule, LLVMContextDispose,
    LLVMCreateTargetMachine, LLVMDisposeTargetMachine, LLVMTargetMachineEmitToFile,
    LLVMTargetMachineEmitToMemoryBuffer, LLVMOrcLLJITGetMainJITDylib, LLVMOrcLLJITAddObjectFile,
    LLVMOrcLLJITLookup, LLVMOrcDisposeLLJIT, jit_cleanup, callNative_loaded,
    fibIR_parent, fibIR_name, fibIR_id, List.lookup,
    World.alloc, World.log, World.empty, create_fib_func_eq, parseEvent,
    Arg.ptr, run0, exitStatus, prologue, epilogue, cleanupCalls, reportCalls, disposeIRCalls]
            · cases g <;> simp [main, LLVMParseCommandLineOptions, LLVMInitializeNativeTarget,
    LLVMInitializeNativeAsmPrinter, LLVMContextCreate, LLVMModuleCreateWithNameInContext,
    LLVMPrintModuleToFile, LLVMOrcCreateLLJIT, handle_error, llvm_shutdown, LLVMShutdown,
    LLVMGetErrorMessage, LLVMDisposeErrorMessage, fprintf, printf, World.emit,
    LLVMOrcLLJITGetTripleString, LLVMGetTargetFromTriple, LLVMDisposeModule, LLVMContextDispose,
    LLVMCreateTargetMachine, LLVMDisposeTargetMachine, LLVMTargetMachineEmitToFile,
    LLVMTargetMachineEmitToMemoryBuffer, LLVMOrcLLJITGetMainJITDylib, LLVMOrcLLJITAddObjectFile,
    LLVMOrcLLJITLookup, LLVMOrcDisposeLLJIT, jit_cleanup, callNative_loaded,
    fibIR_parent, fibIR_name, fibIR_id, List.lookup,
    World.alloc, World.log, World.empty, create_fib_func_eq, parseEvent,
    Arg.ptr, run0, exitStatus, prologue, epilogue, cleanupCalls, reportCalls, disposeIRCalls]
          · cases g <;> simp [main, LLVMParseCommandLineOptions, LLVMInitializeNativeTarget,
    LLVMInitializeNativeAsmPrinter, LLVMContextCreate, LLVMModuleCreateWithNameInContext,
    LLVMPrintModuleToFile, LLVMOrcCreateLLJIT, handle_error, llvm_shutdown, LLVMShutdown,
    LLVMGetErrorMessage, LLVMDisposeErrorMessage, fprintf, printf, World.emit,
    LLVMOrcLLJITGetTripleString, LLVMGetTargetFromTriple, LLVMDisposeModule, LLVMContextDispose,
    LLVMCreateTargetMachine, LLVMDisposeTargetMachine, LLVMTargetMachineEmitToFile,
    LLVMTargetMachineEmitToMemoryBuffer, LLVMOrcLLJITGetMainJITDylib, LLVMOrcLLJITAddObjectFile,
    LLVMOrcLLJITLookup, LLVMOrcDisposeLLJIT, jit_cleanup, callNative_loaded,
    fibIR_parent, fibIR_name, fibIR_id, List.lookup,
    World.alloc, World.log, World.empty, create_fib_func_eq, parseEvent,
    Arg.ptr, run0, exitStatus, prologue, epilogue, cleanupCalls, reportCalls, disposeIRCalls]
        · cases g <;> simp [main, LLVMParseCommandLineOptions, LLVMInitializeNativeTarget,
    LLVMInitializeNativeAsmPrinter, LLVMContextCreate, LLVMModuleCreateWithNameInContext,
    LLVMPrintModuleToFile, LLVMOrcCreateLLJIT, handle_error, llvm_shutdown, LLVMShutdown,
    LLVMGetErrorMessage, LLVMDisposeErrorMessage, fprintf, printf, World.emit,
    LLVMOrcLLJITGetTripleString, LLVMGetTargetFromTriple, LLVMDisposeModule, LLVMContextDispose,
    LLVMCreateTargetMachine, LLVMDisposeTargetMachine, LLVMTargetMachineEmitToFile,
    LLVMTargetMachineEmitToMemoryBuffer, LLVMOrcLLJITGetMainJITDylib, LLVMOrcLLJITAddObjectFile,
    LLVMOrcLLJITLookup, LLVMOrcDisposeLLJIT, jit_cleanup, callNative_loaded,
    fibIR_parent, fibIR_name, fibIR_id, List.lookup,
    World.alloc, World.log, World.empty, create_fib_func_eq, parseEvent,
    Arg.ptr, run0, exitStatus, prologue, epilogue, cleanupCalls, reportCalls, disposeIRCalls]
      · cases g <;> simp [main, LLVMParseCommandLineOptions, LLVMInitializeNativeTarget,
    LLVMInitializeNativeAsmPrinter, LLVMContextCreate, LLVMModuleCreateWithNameInContext,
    LLVMPrintModuleToFile, LLVMOrcCreateLLJIT, handle_error, llvm_shutdown, LLVMShutdown,
    LLVMGetErrorMessage, LLVMDisposeErrorMessage, fprintf, printf, World.emit,
    LLVMOrcLLJITGetTripleString, LLVMGetTargetFromTriple, LLVMDisposeModule, LLVMContextDispose,
    LLVMCreateTargetMachine, LLVMDisposeTargetMachine, LLVMTargetMachineEmitToFile,
    LLVMTargetMachineEmitToMemoryBuffer, LLVMOrcLLJITGetMainJITDylib, LLVMOrcLLJITAddObjectFile,
    LLVMOrcLLJITLookup, LLVMOrcDisposeLLJIT, jit_cleanup, callNative_loaded,
    fibIR_parent, fibIR_name, fibIR_id, List.lookup,
    World.alloc, World.log, World.empty, create_fib_func_eq, parseEvent,
    Arg.ptr, run0, exitStatus, prologue, epilogue, cleanupCalls, reportCalls, disposeIRCalls]
    · cases g <;> simp [main, LLVMParseCommandLineOptions, LLVMInitializeNativeTarget,
    LLVMInitializeNativeAsmPrinter, LLVMContextCreate, LLVMModuleCreateWithNameInContext,
    LLVMPrintModuleToFile, LLVMOrcCreateLLJIT, handle_error, llvm_shutdown, LLVMShutdown,
    LLVMGetErrorMessage, LLVMDisposeErrorMessage, fprintf, printf, World.emit,
    LLVMOrcLLJITGetTripleString, LLVMGetTargetFromTriple, LLVMDisposeModule, LLVMContextDispose,
    LLVMCreateTargetMachine, LLVMDisposeTargetMachine, LLVMTargetMachineEmitToFile,
    LLVMTargetMachineEmitToMemoryBuffer, LLVMOrcLLJITGetMainJITDylib, LLVMOrcLLJITAddObjectFile,
    LLVMOrcLLJITLookup, LLVMOrcDisposeLLJIT, jit_cleanup, callNative_loaded,
    fibIR_parent, fibIR_name, fibIR_id, List.lookup,
    World.alloc, World.log, World.empty, create_fib_func_eq, parseEvent,
    Arg.ptr, run0, exitStatus, prologue, epilogue, cleanupCalls, reportCalls, disposeIRCalls]
  · simp [main, LLVMParseCommandLineOptions, LLVMInitializeNativeTarget,
    LLVMInitializeNativeAsmPrinter, LLVMContextCreate, LLVMModuleCreateWithNameInContext,
    LLVMPrintModuleToFile, LLVMOrcCreateLLJIT, handle_error, llvm_shutdown, LLVMShutdown,
    LLVMGetErrorMessage, LLVMDisposeErrorMessage, fprintf, printf, World.emit,
    LLVMOrcLLJITGetTripleString, LLVMGetTargetFromTriple, LLVMDisposeModule, LLVMContextDispose,
    LLVMCreateTargetMachine, LLVMDisposeTargetMachine, LLVMTargetMachineEmitToFile,
    LLVMTargetMachineEmitToMemoryBuffer, LLVMOrcLLJITGetMainJITDylib, LLVMOrcLLJITAddObjectFile,
    LLVMOrcLLJITLookup, LLVMOrcDisposeLLJIT, jit_cleanup, callNative_loaded,
    fibIR_parent, fibIR_name, fibIR_id, List.lookup,
    World.alloc, World.log, World.empty, create_fib_func_eq, parseEvent,
    Arg.ptr, run0, exitStatus, prologue, epilogue, cleanupCalls, reportCalls, disposeIRCalls]

theorem main_run (o : Outcomes) (fuel : Nat) (hf : 76 ≤ fuel) (argc : Int) (argv : List String) :
    ∃ r, main o fuel argc argv = some r ∧ r.1 = (run0 o).1 ∧
      r.2.trace = parseEvent argc argv :: (run0 o).2 := by
  obtain ⟨k, rfl⟩ : ∃ k, fuel = k + 76 := ⟨fuel - 76, by omega⟩
  have h := main_eq o k argc argv
  cases hm : main o (k + 76) argc argv with
  | none => rw [hm] at h; cases h
  | some r =>
    rw [hm] at h
    simp only [Option.map_some', Option.some.injEq, Prod.mk.injEq] at h
    exact ⟨r, rfl, h.1, h.2⟩

theorem written_parse (s : Stream) (argc : Int) (argv : List String) (t : List Event) :
    written s (parseEvent argc argv :: t) = written s t := rfl

theorem nativeCalls_parse (argc : Int) (argv : List String) (t : List Event) :
    nativeCalls (parseEvent argc argv :: t) = nativeCalls t := rfl

theorem calls_parse (fn : Api) (h : fn ≠ .LLVMParseCommandLineOptions) (argc : Int)
    (argv : List String) (t : List Event) :
    calls fn (parseEvent argc argv :: t) = calls fn t := by
  have h2 : ¬ Api.LLVMParseCommandLineOptions = fn := fun e => h e.symm
  simp [calls, parseEvent, Event.isCall, h2]

theorem getLast_cons_of_some {α : Type} (a x : α) (t : List α) (h : t.getLast? = some x) :
    (a :: t).getLast? = some x := by
  cases t with
  | nil => cases h
  | cons b t => rw [List.getLast?_cons_cons]; exact h

theorem exists_mem_parse (p : Event → Bool) (argc : Int) (argv : List String)
    (t : List Event) (h : p (parseEvent argc argv) = false) :
    (∃ e ∈ parseEvent argc argv :: t, p e = true) ↔ ∃ e ∈ t, p e = true := by
  simp [h]

/-! ## C3: the run in which every call succeeds -/

theorem run0_allSucceed :
    (run0 Outcomes.allSucceed).1 = 0 ∧
    nativeCalls (run0 Outcomes.allSucceed).2 = [(fibIR.id, [10])] ∧
    String.mk (written .stdout (run0 Outcomes.allSucceed).2) = "fib(10) = 55\n" := by
  decide

/-- C3: on the run in which every library call succeeds (the JIT-compiled code
having the fuel to finish), `main` returns `0`, calls through the pointer it
looked up for "fib" exactly once, with the argument `10`, and writes exactly the
line "fib(10) = 55" to standard output. -/
theorem main_all_succeed (fuel : Nat) (hf : 76 ≤ fuel) (argc : Int) (argv : List String) :
    ∃ w, main Outcomes.allSucceed fuel argc argv = some (0, w) ∧
      nativeCalls w.trace = [(fibIR.id, [10])] ∧
      String.mk (written .stdout w.trace) = "fib(10) = 55\n" := by
  obtain ⟨r, hr, h1, h2⟩ := main_run Outcomes.allSucceed fuel hf argc argv
  obtain ⟨s, w⟩ := r
  obtain ⟨c1, c2, c3⟩ := run0_allSucceed
  simp only at h1 h2
  refine ⟨w, ?_, ?_, ?_⟩
  · rw [hr, h1, c1]
  · rw [h2, nativeCalls_parse, c2]
  · rw [h2, written_parse, c3]

/-- C3 for the command line `fib` and fuel `76`. -/
theorem main_all_succeed_witness :
    76 ≤ 76 ∧ ∃ w, main Outcomes.allSucceed 76 1 ["fib"] = some (0, w) ∧
      nativeCalls w.trace = [(fibIR.id, [10])] ∧
      String.mk (written .stdout w.trace) = "fib(10) = 55\n" :=
  ⟨le_refl 76, main_all_succeed 76 (le_refl 76) 1 ["fib"]⟩

/-! ## C4: lifecycle order -/

set_option maxHeartbeats 4000000 in
theorem run0_lifecycle (o : Outcomes) :
    InLifecycleOrder (run0 o).2 ∧ ReachedOnlyAfterSuccess forwardSteps (run0 o).2 ∧
    (o = Outcomes.allSucceed → ((run0 o).2.filterMap Event.step).dedup = allSteps) ∧
    (nativeCalls (run0 o).2 ≠ [] →
      o.createLLJIT = false ∧ o.getTargetFromTriple = false ∧ o.emitToFile = false ∧
      o.emitToMemoryBuffer = false ∧ o.addObjectFile = false ∧ o.lookup = false ∧
      ∀ fn ∈ fallibleSteps, ∃ e ∈ (run0 o).2, e.isOk fn = true) := by
  obtain ⟨a, b, c, d, e, f, g⟩ := o
  cases a <;> cases b <;> cases c <;> cases d <;> cases e <;> cases f <;> cases g <;> decide

theorem inLifecycleOrder_parse (argc : Int) (argv : List String) (t : List Event) :
    InLifecycleOrder (parseEvent argc argv :: t) ↔ InLifecycleOrder t := by
  simp [InLifecycleOrder, parseEvent, Event.step, Api.step]

theorem reachedOnly_parse (steps : List Step) (argc : Int) (argv : List String)
    (t : List Event) :
    ReachedOnlyAfterSuccess steps (parseEvent argc argv :: t) ↔
      ReachedOnlyAfterSuccess steps t := by
  simp [ReachedOnlyAfterSuccess, parseEvent, Event.failedStep, fallibleSteps]

/-- C4 as stated fails: in the run in which `LLVMOrcCreateLLJIT` fails, a step of
the lifecycle, teardown (`LLVMShutdown`), is reached although an earlier fallible
step failed. -/
theorem teardown_reached_after_failure :
    ∃ r, main ⟨true, false, false, false, false, false, false⟩ 76 0 [] = some r ∧
      ¬ ReachedOnlyAfterSuccess allSteps r.2.trace := by
  obtain ⟨r, hr, -, h2⟩ :=
    main_run ⟨true, false, false, false, false, false, false⟩ 76 (le_refl 76) 0 []
  refine ⟨r, hr, ?_⟩
  rw [h2, reachedOnly_parse]
  decide

/-- C4, amended: in every run of `main` the calls occur in the lifecycle order
context, module, builder, JIT creation, emission, loading, lookup, execution,
teardown (all nine steps occur when every call succeeds); each step before
teardown is reached only if every earlier fallible step succeeded; and the
JIT-compiled code is called only if `LLVMOrcCreateLLJIT`,
`LLVMGetTargetFromTriple`, both emissions, `LLVMOrcLLJITAddObjectFile` and
`LLVMOrcLLJITLookup` all succeeded. -/
theorem lifecycle_order (o : Outcomes) (fuel : Nat) (hf : 76 ≤ fuel) (argc : Int)
    (argv : List String) :
    ∃ r, main o fuel argc argv = some r ∧
      InLifecycleOrder r.2.trace ∧
      ReachedOnlyAfterSuccess forwardSteps r.2.trace ∧
      (o = Outcomes.allSucceed → (r.2.trace.filterMap Event.step).dedup = allSteps) ∧
      (nativeCalls r.2.trace ≠ [] →
        o.createLLJIT = false ∧ o.getTargetFromTriple = false ∧ o.emitToFile = false ∧
        o.emitToMemoryBuffer = false ∧ o.addObjectFile = false ∧ o.lookup = false ∧
        ∀ fn ∈ fallibleSteps, ∃ e ∈ r.2.trace, e.isOk fn = true) := by
  obtain ⟨r, hr, -, h2⟩ := main_run o fuel hf argc argv
  obtain ⟨c1, c2, c0, c3⟩ := run0_lifecycle o
  refine ⟨r, hr, ?_, ?_, ?_, ?_⟩
  · rw [h2, inLifecycleOrder_parse]; exact c1
  · rw [h2, reachedOnly_parse]; exact c2
  · rw [h2]; exact c0
  · rw [h2, nativeCalls_parse]
    intro hn
    obtain ⟨f1, f2, f3, f4, f5, f6, f7⟩ := c3 hn
    refine ⟨f1, f2, f3, f4, f5, f6, ?_⟩
    intro fn hfn
    obtain ⟨e, he, hok⟩ := f7 fn hfn
    exact ⟨e, List.mem_cons_of_mem _ he, hok⟩

/-- C4, amended, for the run in which the emission of the object code fails. -/
theorem lifecycle_order_witness :
    76 ≤ 76 ∧
      ∃ r, main ⟨false, false, false, true, false, false, false⟩ 76 1 ["fib"] = some r ∧
        InLifecycleOrder r.2.trace ∧
        ReachedOnlyAfterSuccess forwardSteps r.2.trace ∧
        ((⟨false, false, false, true, false, false, false⟩ : Outcomes) = Outcomes.allSucceed →
          (r.2.trace.filterMap Event.step).dedup = allSteps) ∧
        (nativeCalls r.2.trace ≠ [] →
          (⟨false, false, false, true, false, false, false⟩ : Outcomes).createLLJIT = false ∧
          (⟨false, false, false, true, false, false, false⟩ : Outcomes).getTargetFromTriple
            = false ∧
          (⟨false, false, false, true, false, false, false⟩ : Outcomes).emitToFile = false ∧
          (⟨false, false, false, true, false, false, false⟩ : Outcomes).emitToMemoryBuffer
            = false ∧
          (⟨false, false, false, true, false, false, false⟩ : Outcomes).addObjectFile = false ∧
          (⟨false, false, false, true, false, false, false⟩ : Outcomes).lookup = false ∧
          ∀ fn ∈ fallibleSteps, ∃ e ∈ r.2.trace, e.isOk fn = true) :=
  ⟨le_refl 76, lifecycle_order ⟨false, false, false, true, false, false, false⟩ 76 (le_refl 76)
    1 ["fib"]⟩

/-! ## C5: teardown -/

set_option maxHeartbeats 4000000 in
theorem run0_teardown (o : Outcomes) :
    calls .LLVMShutdown (run0 o).2 = 1 ∧
    (run0 o).2.getLast? = some (.lib .LLVMShutdown [] false) ∧
    calls .LLVMOrcDisposeLLJIT (run0 o).2 = (if o.createLLJIT then 0 else 1) ∧
    ((∃ e ∈ (run0 o).2, e.isOk .LLVMOrcCreateLLJIT = true) ↔ o.createLLJIT = false) ∧
    ((∃ e ∈ (run0 o).2, e.isFailed .LLVMOrcCreateLLJIT = true) ↔ o.createLLJIT = true) ∧
    NoUseAfterDispose (run0 o).2 := by
  obtain ⟨a, b, c, d, e, f, g⟩ := o
  cases a <;> cases b <;> cases c <;> cases d <;> cases e <;> cases f <;> cases g <;> decide

theorem noUseAfterDispose_parse (argc : Int) (argv : List String) (t : List Event) :
    NoUseAfterDispose (parseEvent argc argv :: t) ↔ NoUseAfterDispose t := by
  simp [NoUseAfterDispose, parseEvent, Event.disposes, Api.consumes]

/-- C5: in every run of `main`, `LLVMShutdown` is called exactly once and is the
last thing the run does; `LLVMOrcDisposeLLJIT` is called exactly once if
`LLVMOrcCreateLLJIT` succeeded and not at all if it failed; and no object is
used or disposed again after it was disposed. -/
theorem teardown_on_every_path (o : Outcomes) (fuel : Nat) (hf : 76 ≤ fuel) (argc : Int)
    (argv : List String) :
    ∃ r, main o fuel argc argv = some r ∧
      calls .LLVMShutdown r.2.trace = 1 ∧
      r.2.trace.getLast? = some (.lib .LLVMShutdown [] false) ∧
      calls .LLVMOrcDisposeLLJIT r.2.trace = (if o.createLLJIT then 0 else 1) ∧
      ((∃ e ∈ r.2.trace, e.isOk .LLVMOrcCreateLLJIT = true) ↔ o.createLLJIT = false) ∧
      ((∃ e ∈ r.2.trace, e.isFailed .LLVMOrcCreateLLJIT = true) ↔ o.createLLJIT = true) ∧
      NoUseAfterDispose r.2.trace := by
  obtain ⟨r, hr, -, h2⟩ := main_run o fuel hf argc argv
  obtain ⟨c1, c2, c3, c4, c5, c6⟩ := run0_teardown o
  refine ⟨r, hr, ?_, ?_, ?_, ?_, ?_, ?_⟩
  · rw [h2, calls_parse _ (by decide)]; exact c1
  · rw [h2]; exact getLast_cons_of_some _ _ _ c2
  · rw [h2, calls_parse _ (by decide)]; exact c3
  · rw [h2, exists_mem_parse _ _ _ _ rfl]; exact c4
  · rw [h2, exists_mem_parse _ _ _ _ rfl]; exact c5
  · rw [h2, noUseAfterDispose_parse]; exact c6

/-- C5 for the run in which `LLVMOrcLLJITLookup` fails. -/
theorem teardown_on_every_path_witness :
    76 ≤ 76 ∧
      ∃ r, main ⟨false, false, false, false, false, true, false⟩ 76 1 ["fib"] = some r ∧
        calls .LLVMShutdown r.2.trace = 1 ∧
        r.2.trace.getLast? = some (.lib .LLVMShutdown [] false) ∧
        calls .LLVMOrcDisposeLLJIT r.2.trace
          = (if (⟨false, false, false, false, false, true, false⟩ : Outcomes).createLLJIT
              then 0 else 1) ∧
        ((∃ e ∈ r.2.trace, e.isOk .LLVMOrcCreateLLJIT = true) ↔
          (⟨false, false, false, false, false, true, false⟩ : Outcomes).createLLJIT = false) ∧
        ((∃ e ∈ r.2.trace, e.isFailed .LLVMOrcCreateLLJIT = true) ↔
          (⟨false, false, false, false, false, true, false⟩ : Outcomes).createLLJIT = true) ∧
        NoUseAfterDispose r.2.trace :=
  ⟨le_refl 76, teardown_on_every_path ⟨false, false, false, false, false, true, false⟩ 76
    (le_refl 76) 1 ["fib"]⟩

/-! ## C6: files -/

set_option maxHeartbeats 4000000 in
theorem run0_files (o : Outcomes) :
    (filesWritten (run0 o).2 = [(.LLVMPrintModuleToFile, "fib.ll")] ∨
      filesWritten (run0 o).2
        = [(.LLVMPrintModuleToFile, "fib.ll"), (.LLVMTargetMachineEmitToFile, "fib.s")]) ∧
    (o = Outcomes.allSucceed →
      filesWritten (run0 o).2
        = [(.LLVMPrintModuleToFile, "fib.ll"), (.LLVMTargetMachineEmitToFile, "fib.s")]) ∧
    (∀ e ∈ (run0 o).2, e.emitsObject = true →
      e.isCall .LLVMTargetMachineEmitToMemoryBuffer = true) ∧
    (o = Outcomes.allSucceed → ∃ e ∈ (run0 o).2, e.emitsObject = true) := by
  obtain ⟨a, b, c, d, e, f, g⟩ := o
  cases a <;> cases b <;> cases c <;> cases d <;> cases e <;> cases f <;> cases g <;> decide

theorem filesWritten_parse (argc : Int) (argv : List String) (t : List Event) :
    filesWritten (parseEvent argc argv :: t) = filesWritten t := rfl

/-- C6: in every run of `main` the file-writing calls are
`LLVMPrintModuleToFile` to "fib.ll", once, followed by at most one
`LLVMTargetMachineEmitToFile` to "fib.s" (both when every call succeeds), and
object code is requested from `LLVMTargetMachineEmitToMemoryBuffer` only. -/
theorem only_two_files (o : Outcomes) (fuel : Nat) (hf : 76 ≤ fuel) (argc : Int)
    (argv : List String) :
    ∃ r, main o fuel argc argv = some r ∧
      (filesWritten r.2.trace = [(.LLVMPrintModuleToFile, "fib.ll")] ∨
        filesWritten r.2.trace
          = [(.LLVMPrintModuleToFile, "fib.ll"), (.LLVMTargetMachineEmitToFile, "fib.s")]) ∧
      (o = Outcomes.allSucceed →
        filesWritten r.2.trace
          = [(.LLVMPrintModuleToFile, "fib.ll"), (.LLVMTargetMachineEmitToFile, "fib.s")]) ∧
      (∀ e ∈ r.2.trace, e.emitsObject = true →
        e.isCall .LLVMTargetMachineEmitToMemoryBuffer = true) ∧
      (o = Outcomes.allSucceed → ∃ e ∈ r.2.trace, e.emitsObject = true) := by
  obtain ⟨r, hr, -, h2⟩ := main_run o fuel hf argc argv
  obtain ⟨c1, c2, c3, c4⟩ := run0_files o
  refine ⟨r, hr, ?_, ?_, ?_, ?_⟩
  · rw [h2, filesWritten_parse]; exact c1
  · rw [h2, filesWritten_parse]; exact c2
  · rw [h2]
    intro e he
    rcases List.mem_cons.mp he with rfl | he
    · intro h; cases h
    · exact c3 e he
  · rw [h2, exists_mem_parse _ _ _ _ rfl]; exact c4

/-- C6 for the run in which every call succeeds. -/
theorem only_two_files_witness :
    76 ≤ 76 ∧
      ∃ r, main Outcomes.allSucceed 76 1 ["fib"] = some r ∧
        (filesWritten r.2.trace = [(.LLVMPrintModuleToFile, "fib.ll")] ∨
          filesWritten r.2.trace
            = [(.LLVMPrintModuleToFile, "fib.ll"), (.LLVMTargetMachineEmitToFile, "fib.s")]) ∧
        (Outcomes.allSucceed = Outcomes.allSucceed →
          filesWritten r.2.trace
            = [(.LLVMPrintModuleToFile, "fib.ll"), (.LLVMTargetMachineEmitToFile, "fib.s")]) ∧
        (∀ e ∈ r.2.trace, e.emitsObject = true →
          e.isCall .LLVMTargetMachineEmitToMemoryBuffer = true) ∧
        (Outcomes.allSucceed = Outcomes.allSucceed → ∃ e ∈ r.2.trace, e.emitsObject = true) :=
  ⟨le_refl 76, only_two_files Outcomes.allSucceed 76 (le_refl 76) 1 ["fib"]⟩

/-! ## C7: the command line -/

set_option maxHeartbeats 4000000 in
theorem run0_parse_free (o : Outcomes) :
    ∀ e ∈ (run0 o).2, e.isCall .LLVMParseCommandLineOptions = false := by
  obtain ⟨a, b, c, d, e, f, g⟩ := o
  cases a <;> cases b <;> cases c <;> cases d <;> cases e <;> cases f <;> cases g <;> decide

theorem program_returns (parser : Int → List String → ParseOutcome) (o : Outcomes)
    (fuel : Nat) (hf : 76 ≤ fuel) (argc : Int) (argv : List String)
    (hp : parser argc argv = .returns) :
    program parser o fuel argc argv
      = .returned (run0 o).1 (parseEvent argc argv :: (run0 o).2) := by
  obtain ⟨r, hr, h1, h2⟩ := main_run o fuel hf argc argv
  unfold program
  rw [hp]
  simp only [hr, h1, h2]

theorem program_exits (parser : Int → List String → ParseOutcome) (o : Outcomes)
    (fuel : Nat) (argc : Int) (argv : List String) (code : Int)
    (hp : parser argc argv = .exits code) :
    program parser o fuel argc argv = .exited code [parseEvent argc argv] := by
  unfold program
  rw [hp]
  rfl

/-- C7 as stated fails: `main` hands `argc` and `argv` to
`LLVMParseCommandLineOptions`, and what the program does depends on them: on the
command line `fib` it runs to the end of `main`, on `fib -help` the library ends
the process inside that first call. -/
theorem command_line_reaches_library :
    program helpParser Outcomes.allSucceed 76 1 ["fib"]
      ≠ program helpParser Outcomes.allSucceed 76 2 ["fib", "-help"] := by
  rw [program_returns helpParser Outcomes.allSucceed 76 (le_refl 76) 1 ["fib"] (by decide),
    program_exits helpParser Outcomes.allSucceed 76 2 ["fib", "-help"] 0 (by decide)]
  intro h
  cases h

/-- C7, amended: `main` does no parsing of its own and the command line shows in
its first call only.  For given outcomes of the library calls there are a status
and a sequence `t` of calls, none of them `LLVMParseCommandLineOptions`, such
that on every command line the program first calls
`LLVMParseCommandLineOptions (argc, argv, "")` and then, if the library's parser
returns, does exactly `t` and returns that status, whatever the command line;
if the parser ends the process, that call is all the program does. -/
theorem command_line_only_in_first_call (o : Outcomes) (fuel : Nat) (hf : 76 ≤ fuel) :
    ∃ status t,
      (∀ e ∈ t, e.isCall .LLVMParseCommandLineOptions = false) ∧
      ∀ (parser : Int → List String → ParseOutcome) (argc : Int) (argv : List String),
        (parser argc argv = .returns →
          program parser o fuel argc argv
            = .returned status (parseEvent argc argv :: t)) ∧
        (∀ code, parser argc argv = .exits code →
          program parser o fuel argc argv = .exited code [parseEvent argc argv]) :=
  ⟨(run0 o).1, (run0 o).2, run0_parse_free o, fun parser argc argv =>
    ⟨program_returns parser o fuel hf argc argv,
      fun code => program_exits parser o fuel argc argv code⟩⟩

/-- C7, amended, for the run in which every call succeeds, on the command lines
`fib` and `./fib`, where the parser returns, and `fib -help`, where it ends the
process. -/
theorem command_line_only_in_first_call_witness :
    76 ≤ 76 ∧
      ∃ status t,
        (∀ e ∈ t, e.isCall .LLVMParseCommandLineOptions = false) ∧
        program helpParser Outcomes.allSucceed 76 1 ["fib"]
          = .returned status (parseEvent 1 ["fib"] :: t) ∧
        program helpParser Outcomes.allSucceed 76 1 ["./fib"]
          = .returned status (parseEvent 1 ["./fib"] :: t) ∧
        program helpParser Outcomes.allSucceed 76 2 ["fib", "-help"]
          = .exited 0 [parseEvent 2 ["fib", "-help"]] :=
  ⟨le_refl 76,
    (command_line_only_in_first_call Outcomes.allSucceed 76 (le_refl 76)).elim
      fun status h => h.elim fun t h =>
        ⟨status, t, h.1, (h.2 helpParser 1 ["fib"]).1 (by decide),
          (h.2 helpParser 1 ["./fib"]).1 (by decide),
          (h.2 helpParser 2 ["fib", "-help"]).2 0 (by decide)⟩⟩

/-! ## C8: exit status -/

set_option maxHeartbeats 4000000 in
theorem run0_status (o : Outcomes) :
    ((run0 o).1 = 1 ↔ ∃ e ∈ (run0 o).2, e.reportsError = true) ∧
    ((run0 o).1 = 0 ↔ ¬ ∃ e ∈ (run0 o).2, e.reportsError = true) ∧
    ((∃ e ∈ (run0 o).2, e.reportsFlag = true) →
      (∃ e ∈ (run0 o).2, e.isOk .LLVMOrcDisposeLLJIT = true) →
      (run0 o).1 = 0 ∧ nativeCalls (run0 o).2 = []) := by
  obtain ⟨a, b, c, d, e, f, g⟩ := o
  cases a <;> cases b <;> cases c <;> cases d <;> cases e <;> cases f <;> cases g <;> decide

/-- C8: `main` returns `1` exactly when one of the calls returning `LLVMErrorRef`
that the run reached (`LLVMOrcCreateLLJIT`, `LLVMOrcLLJITAddObjectFile`,
`LLVMOrcLLJITLookup`, `LLVMOrcDisposeLLJIT`) reported an error, and `0`
otherwise; so when `LLVMGetTargetFromTriple`, `LLVMTargetMachineEmitToFile` or
`LLVMTargetMachineEmitToMemoryBuffer` fails and `LLVMOrcDisposeLLJIT` succeeds,
`main` returns `0` and the JIT-compiled code was never called.  `handle_error`
returns `1` for every error. -/
theorem exit_status (o : Outcomes) (fuel : Nat) (hf : 76 ≤ fuel) (argc : Int)
    (argv : List String) :
    (∃ r, main o fuel argc argv = some r ∧
      (r.1 = 1 ↔ ∃ e ∈ r.2.trace, e.reportsError = true) ∧
      (r.1 = 0 ↔ ¬ ∃ e ∈ r.2.trace, e.reportsError = true) ∧
      ((∃ e ∈ r.2.trace, e.reportsFlag = true) →
        (∃ e ∈ r.2.trace, e.isOk .LLVMOrcDisposeLLJIT = true) →
        r.1 = 0 ∧ nativeCalls r.2.trace = [])) ∧
    ∀ (w : World) (Err : Nat), (handle_error w Err).1 = 1 := by
  obtain ⟨r, hr, h1, h2⟩ := main_run o fuel hf argc argv
  obtain ⟨c1, c2, c3⟩ := run0_status o
  refine ⟨⟨r, hr, ?_, ?_, ?_⟩, fun _ _ => rfl⟩
  · rw [h1, h2, exists_mem_parse _ _ _ _ rfl]; exact c1
  · rw [h1, h2, exists_mem_parse _ _ _ _ rfl]; exact c2
  · rw [h1, h2, exists_mem_parse _ _ _ _ rfl, exists_mem_parse _ _ _ _ rfl,
      nativeCalls_parse]
    exact c3

/-- C8 for the run in which `LLVMTargetMachineEmitToFile` fails. -/
theorem exit_status_witness :
    76 ≤ 76 ∧
      ((∃ r, main ⟨false, false, true, false, false, false, false⟩ 76 1 ["fib"] = some r ∧
        (r.1 = 1 ↔ ∃ e ∈ r.2.trace, e.reportsError = true) ∧
        (r.1 = 0 ↔ ¬ ∃ e ∈ r.2.trace, e.reportsError = true) ∧
        ((∃ e ∈ r.2.trace, e.reportsFlag = true) →
          (∃ e ∈ r.2.trace, e.isOk .LLVMOrcDisposeLLJIT = true) →
          r.1 = 0 ∧ nativeCalls r.2.trace = [])) ∧
      ∀ (w : World) (Err : Nat), (handle_error w Err).1 = 1) :=
  ⟨le_refl 76, exit_status ⟨false, false, true, false, false, false, false⟩ 76 (le_refl 76)
    1 ["fib"]⟩

end Fibonacci
